import Mathlib

/-!
Verification of the agent-router classification-and-selection engine
(`router-service`: `classifier.py`, `router.py`).

The Python source is shallowly embedded: prompts are strings processed as
lists of characters (Python lowercases with `str.lower`, here `Char.toLower`,
which agrees on ASCII); all arithmetic on scores and confidences uses exact
rationals (the idealized reading of the Python float arithmetic, whose
constants are all small decimal fractions); Python `round(x, 2)` is embedded
as `round2` below.  `dict`s with fixed string keys become structures, the
capability registry and specialized-rule table become association lists in
declaration order (Python 3.7+ dicts iterate in insertion order).
-/

namespace AgentRouter

/-! ### Text utilities shared by the classifier embeddings

These model the handful of Python string primitives the source uses:
`in` (substring containment), `str.count` (non-overlapping count),
`str.split()` (split on whitespace runs), `str.startswith`,
`str.rstrip(chars)`, and `re.search` for the fixed exploration patterns
(all of the form `lit1 .* lit2`, where `.` does not match a newline). -/

/-- Python `pat in s` (substring containment) on lowered character lists. -/
def containsSub (pat : List Char) : List Char → Bool
  | [] => pat.isEmpty
  | c :: rest => pat.isPrefixOf (c :: rest) || containsSub pat rest

/-- Fuel-driven scan for `countSub`; the fuel (initially the length of the
scanned list, which strictly shrinks at every step) only forces structural
termination and never runs out. -/
def countSubF (pat : List Char) : Nat → List Char → Nat
  | 0, _ => 0
  | _ + 1, [] => 0
  | fuel + 1, c :: rest =>
    if pat.isPrefixOf (c :: rest) then 1 + countSubF pat fuel (rest.drop (pat.length - 1))
    else countSubF pat fuel rest

/-- Python `s.count(pat)`: non-overlapping left-to-right occurrence count
(the scan advances past a match).  All patterns used are nonempty. -/
def countSub (pat : List Char) (s : List Char) : Nat := countSubF pat s.length s

/-- Fuel-driven scan for `splitWs` (same scheme as `countSubF`). -/
def splitWsF : Nat → List Char → List (List Char)
  | 0, _ => []
  | _ + 1, [] => []
  | fuel + 1, c :: rest =>
    if c.isWhitespace then splitWsF fuel rest
    else (c :: rest.takeWhile (fun d => !d.isWhitespace)) ::
      splitWsF fuel (rest.dropWhile (fun d => !d.isWhitespace))

/-- Python `s.split()`: words separated by runs of whitespace, no empties. -/
def splitWs (s : List Char) : List (List Char) := splitWsF s.length s

/-- Python `w.rstrip(chars)`. -/
def rstripChars (strip : List Char) (w : List Char) : List Char :=
  (w.reverse.dropWhile (fun c => strip.contains c)).reverse

/-- Helper for the `.*` of the exploration regexes: `b` occurs at or after the
current position with no newline consumed before its start
(Python `.` does not match `\n`). -/
def afterNoNL (b : List Char) : List Char → Bool
  | [] => b.isEmpty
  | c :: rest => b.isPrefixOf (c :: rest) || (!(c == '\n') && afterNoNL b rest)

/-- Python `re.search("lit1.*lit2", s) is not None` for the fixed two-segment
exploration patterns. -/
def wildSearch (a b : List Char) : List Char → Bool
  | [] => a.isEmpty && b.isEmpty
  | c :: rest =>
    (a.isPrefixOf (c :: rest) && afterNoNL b ((c :: rest).drop a.length)) ||
      wildSearch a b rest

/-- Python `str.lower()` applied to a prompt, as a character list
(agrees with `str.lower` on ASCII input). -/
def lower (s : String) : List Char := s.data.map Char.toLower

/-- Number of keywords of `kws` occurring in `p`
(Python `sum(1 for kw in kws if kw in p)`). -/
def countKw (kws : List String) (p : List Char) : Nat :=
  kws.countP (fun kw => containsSub kw.data p)

/-- Python `any(kw in p for kw in kws)`. -/
def anyKw (kws : List String) (p : List Char) : Bool :=
  kws.any (fun kw => containsSub kw.data p)

/-- Python `round(q, 2)` on the exact rational embedding.  Everything the
source rounds is an integer multiple of 1/100, where Python's banker's
rounding and `round` agree (both are the identity). -/
def round2 (q : ℚ) : ℚ := ((round (q * 100) : ℤ) : ℚ) / 100

theorem round2_eq_self (q : ℚ) (n : ℤ) (h : q * 100 = (n : ℚ)) : round2 q = q := by
  unfold round2
  rw [h, round_intCast, ← h]
  exact mul_div_cancel_right₀ q (by norm_num)

/-! ### Classifier embedding (`classifier.py`) -/

namespace Classifier

/-- Classification Result (`classify_prompt`'s returned dict). -/
structure Classification where
  taskType : String
  taskTypeConfidence : ℚ
  complexity : String
  complexityScore : ℚ
  taskSignals : List String
  complexitySignals : List String
deriving Repr, DecidableEq

/-- `research_keywords` (classifier.py lines 520-548). -/
def research_keywords : List String :=
  ["research", "explore", "investigate", "find all", "search for", "look for",
   "identify", "discover", "locate", "where is", "how is", "understand how",
   "learn about", "analyze", "find patterns", "scan", "survey", "examine all",
   "across", "throughout", "in the codebase", "in the repo", "search the",
   "look through", "examine", "study", "inspect"]

/-- `exploration_patterns` (classifier.py lines 550-560), each regex
`lit1.*lit2` represented by its two literal segments. -/
def exploration_patterns : List (String × String) :=
  [("how does ", " work"), ("where ", " implemented"), ("find ", " usage"),
   ("search ", " for"), ("look ", " across"), ("identify all ", ""),
   ("list all ", ""), ("show ", " across"), ("find all ", " in")]

def review_keywords : List String :=
  ["review", "audit", "check for", "look for issues", "security review",
   "code review", "pr review", "pull request", "vulnerability",
   "best practices", "code quality"]

def debug_keywords : List String :=
  ["fix", "bug", "debug", "error", "broken", "failing", "crash", "exception",
   "traceback", "doesn't work", "not working", "wrong output", "unexpected",
   "fault", "defect"]

def explain_keywords : List String :=
  ["explain", "what does", "how does", "understand", "walk through",
   "describe", "what is", "tell me about", "how is", "why does", "meaning of",
   "purpose of"]

/-- Code-context keywords for the explanation rule (classifier.py 658-696). -/
def explain_context_keywords : List String :=
  ["code", "function", "class", "module", "method", "variable", "algorithm",
   "pattern", "regex", "database", "connection", "api", "endpoint", "server",
   "client", "request", "response", "query", "cache", "pool", "thread",
   "process", "async", ".py", ".js", ".ts", ".go", ".rs", ".java", ".cpp",
   "this file", "this code", "the code", "this script"]

def refactor_keywords : List String :=
  ["refactor", "restructure", "reorganize", "clean up", "improve", "optimize",
   "simplify", "modernize", "convert to", "migrate", "upgrade", "rewrite"]

def gen_keywords : List String :=
  ["write", "create", "implement", "build", "add", "generate", "make",
   "develop", "set up", "scaffold", "bootstrap"]

def gen_context : List String :=
  ["function", "class", "api", "endpoint", "module", "script", "component",
   "service", "handler", "test", "interface", "method", "route", "middleware",
   "hook", "util"]

def summary_keywords : List String :=
  ["summarize", "summary", "overview", "tldr", "brief", "recap", "key points",
   "main points", "gist"]

def math_keywords : List String :=
  ["calculate", "compute", "algorithm", "complexity", "big o", "formula",
   "equation", "fibonacci", "sort", "search", "optimize", "efficient"]

/-- Code-context keywords of the weak research branch (classifier.py 574-590). -/
def research_context_keywords : List String :=
  ["codebase", "repo", "files", "modules", "code", "implementation", "across",
   "throughout", "all", "entire", "whole", "project"]

def question_starts : List String :=
  ["what", "why", "how", "when", "where", "which", "can"]

/-- Match counts and trigger conditions of the cascade rules, each computed
on the lowered prompt exactly as in the source. -/
def research_matches (p : List Char) : Nat := countKw research_keywords p

def pattern_matches (p : List Char) : Nat :=
  exploration_patterns.countP (fun pr => wildSearch pr.1.data pr.2.data p)

def research_code_context (p : List Char) : Bool := anyKw research_context_keywords p

def review_matches (p : List Char) : Nat := countKw review_keywords p

def debug_matches (p : List Char) : Nat := countKw debug_keywords p

def explain_matches (p : List Char) : Nat := countKw explain_keywords p

def explain_code_context (p : List Char) : Bool := anyKw explain_context_keywords p

def refactor_matches (p : List Char) : Nat := countKw refactor_keywords p

def gen_matches (p : List Char) : Nat := countKw gen_keywords p

def context_matches (p : List Char) : Nat := countKw gen_context p

def summary_trigger (p : List Char) : Bool := anyKw summary_keywords p

def math_trigger (p : List Char) : Bool := anyKw math_keywords p

def qa_trigger (p : List Char) : Bool :=
  p.contains '?' || question_starts.any (fun q => q.data.isPrefixOf p)

/-! Trigger conditions of the cascade rules, in priority order.  `abbrev`
keeps them reducible so decidability is inferred. -/

abbrev researchStrongTrig (p : List Char) : Prop :=
  research_matches p ≥ 2 ∨ pattern_matches p ≥ 1

abbrev researchWeakTrig (p : List Char) : Prop :=
  research_matches p = 1 ∧ research_code_context p = true

abbrev reviewTrig (p : List Char) : Prop := review_matches p > 0

abbrev debugTrig (p : List Char) : Prop := debug_matches p > 0

abbrev explainTrig (p : List Char) : Prop :=
  explain_matches p > 0 ∧ (explain_code_context p = true ∨ p.contains '?' = true)

abbrev refactorTrig (p : List Char) : Prop := refactor_matches p > 0

abbrev genBothTrig (p : List Char) : Prop :=
  gen_matches p > 0 ∧ context_matches p > 0

abbrev genMultiTrig (p : List Char) : Prop := gen_matches p ≥ 2

abbrev summaryTrigP (p : List Char) : Prop := summary_trigger p = true

abbrev mathTrigP (p : List Char) : Prop := math_trigger p = true

abbrev qaTrigP (p : List Char) : Prop := qa_trigger p = true

/-- Task-type cascade of `classify_prompt` (classifier.py lines 515-824):
the sequence of `if not task_type` blocks is an else-if chain, embedded as
one.  Returns (task_type, confidence, task signal tags). -/
def taskTypeOf (p : List Char) : String × ℚ × List String :=
  if researchStrongTrig p then
    ("research",
     min (0.8 + (research_matches p : ℚ) * 0.03 + (pattern_matches p : ℚ) * 0.05) 0.95,
     ["research_keywords:" ++ toString (research_matches p) ++ ",patterns:"
        ++ toString (pattern_matches p)])
  else if researchWeakTrig p then
    ("research", 0.75, ["research_keywords:1,code_context"])
  else if reviewTrig p then
    ("code_review", min (0.7 + (review_matches p : ℚ) * 0.05) 0.95,
     ["review_keywords:" ++ toString (review_matches p)])
  else if debugTrig p then
    ("code_debugging", min (0.7 + (debug_matches p : ℚ) * 0.05) 0.95,
     ["debug_keywords:" ++ toString (debug_matches p)])
  else if explainTrig p then
    ("code_explanation", min (0.7 + (explain_matches p : ℚ) * 0.05) 0.95,
     ["explain_keywords:" ++ toString (explain_matches p)])
  else if refactorTrig p then
    ("rewrite", min (0.7 + (refactor_matches p : ℚ) * 0.05) 0.95,
     ["refactor_keywords:" ++ toString (refactor_matches p)])
  else if genBothTrig p then
    ("code_generation",
     min (0.7 + (gen_matches p : ℚ) * 0.03 + (context_matches p : ℚ) * 0.03) 0.95,
     ["gen_keywords:" ++ toString (gen_matches p) ++ ",context:"
        ++ toString (context_matches p)])
  else if genMultiTrig p then
    ("code_generation", 0.7, ["gen_keywords:" ++ toString (gen_matches p)])
  else if summaryTrigP p then
    ("summarization", 0.8, ["summary_keywords"])
  else if mathTrigP p then
    ("math", 0.75, ["math_keywords"])
  else if qaTrigP p then
    ("open_qa", 0.6, ["question_pattern"])
  else
    ("code_generation", 0.5, ["default"])

/-- The confidence attached to each cascade rule, indexed in priority order
(for reuse in case analyses). -/
def ruleConf (p : List Char) : Fin 12 → ℚ
  | 0 => min (0.8 + (research_matches p : ℚ) * 0.03 + (pattern_matches p : ℚ) * 0.05) 0.95
  | 1 => 0.75
  | 2 => min (0.7 + (review_matches p : ℚ) * 0.05) 0.95
  | 3 => min (0.7 + (debug_matches p : ℚ) * 0.05) 0.95
  | 4 => min (0.7 + (explain_matches p : ℚ) * 0.05) 0.95
  | 5 => min (0.7 + (refactor_matches p : ℚ) * 0.05) 0.95
  | 6 => min (0.7 + (gen_matches p : ℚ) * 0.03 + (context_matches p : ℚ) * 0.03) 0.95
  | 7 => 0.7
  | 8 => 0.8
  | 9 => 0.75
  | 10 => 0.6
  | 11 => 0.5

/-- Case elimination for `taskTypeOf`, proved once and reused: the cascade
lands in exactly one of its twelve outcomes and the trigger context of the
branch is available. -/
theorem taskTypeOf_elim (p : List Char) (motive : String × ℚ × List String → Prop)
    (h0 : researchStrongTrig p →
      motive ("research", ruleConf p 0,
        ["research_keywords:" ++ toString (research_matches p) ++ ",patterns:"
          ++ toString (pattern_matches p)]))
    (h1 : ¬researchStrongTrig p → researchWeakTrig p →
      motive ("research", ruleConf p 1, ["research_keywords:1,code_context"]))
    (h2 : ¬researchStrongTrig p → ¬researchWeakTrig p → reviewTrig p →
      motive ("code_review", ruleConf p 2,
        ["review_keywords:" ++ toString (review_matches p)]))
    (h3 : ¬researchStrongTrig p → ¬researchWeakTrig p → ¬reviewTrig p → debugTrig p →
      motive ("code_debugging", ruleConf p 3,
        ["debug_keywords:" ++ toString (debug_matches p)]))
    (h4 : ¬researchStrongTrig p → ¬researchWeakTrig p → ¬reviewTrig p → ¬debugTrig p →
      explainTrig p →
      motive ("code_explanation", ruleConf p 4,
        ["explain_keywords:" ++ toString (explain_matches p)]))
    (h5 : ¬researchStrongTrig p → ¬researchWeakTrig p → ¬reviewTrig p → ¬debugTrig p →
      ¬explainTrig p → refactorTrig p →
      motive ("rewrite", ruleConf p 5,
        ["refactor_keywords:" ++ toString (refactor_matches p)]))
    (h6 : ¬researchStrongTrig p → ¬researchWeakTrig p → ¬reviewTrig p → ¬debugTrig p →
      ¬explainTrig p → ¬refactorTrig p → genBothTrig p →
      motive ("code_generation", ruleConf p 6,
        ["gen_keywords:" ++ toString (gen_matches p) ++ ",context:"
          ++ toString (context_matches p)]))
    (h7 : ¬researchStrongTrig p → ¬researchWeakTrig p → ¬reviewTrig p → ¬debugTrig p →
      ¬explainTrig p → ¬refactorTrig p → ¬genBothTrig p → genMultiTrig p →
      motive ("code_generation", ruleConf p 7,
        ["gen_keywords:" ++ toString (gen_matches p)]))
    (h8 : ¬researchStrongTrig p → ¬researchWeakTrig p → ¬reviewTrig p → ¬debugTrig p →
      ¬explainTrig p → ¬refactorTrig p → ¬genBothTrig p → ¬genMultiTrig p →
      summaryTrigP p → motive ("summarization", ruleConf p 8, ["summary_keywords"]))
    (h9 : ¬researchStrongTrig p → ¬researchWeakTrig p → ¬reviewTrig p → ¬debugTrig p →
      ¬explainTrig p → ¬refactorTrig p → ¬genBothTrig p → ¬genMultiTrig p →
      ¬summaryTrigP p → mathTrigP p → motive ("math", ruleConf p 9, ["math_keywords"]))
    (h10 : ¬researchStrongTrig p → ¬researchWeakTrig p → ¬reviewTrig p → ¬debugTrig p →
      ¬explainTrig p → ¬refactorTrig p → ¬genBothTrig p → ¬genMultiTrig p →
      ¬summaryTrigP p → ¬mathTrigP p → qaTrigP p →
      motive ("open_qa", ruleConf p 10, ["question_pattern"]))
    (h11 : ¬researchStrongTrig p → ¬researchWeakTrig p → ¬reviewTrig p → ¬debugTrig p →
      ¬explainTrig p → ¬refactorTrig p → ¬genBothTrig p → ¬genMultiTrig p →
      ¬summaryTrigP p → ¬mathTrigP p → ¬qaTrigP p →
      motive ("code_generation", ruleConf p 11, ["default"])) :
    motive (taskTypeOf p) := by
  unfold taskTypeOf
  by_cases a0 : researchStrongTrig p
  · rw [if_pos a0]; exact h0 a0
  · rw [if_neg a0]
    by_cases a1 : researchWeakTrig p
    · rw [if_pos a1]; exact h1 a0 a1
    · rw [if_neg a1]
      by_cases a2 : reviewTrig p
      · rw [if_pos a2]; exact h2 a0 a1 a2
      · rw [if_neg a2]
        by_cases a3 : debugTrig p
        · rw [if_pos a3]; exact h3 a0 a1 a2 a3
        · rw [if_neg a3]
          by_cases a4 : explainTrig p
          · rw [if_pos a4]; exact h4 a0 a1 a2 a3 a4
          · rw [if_neg a4]
            by_cases a5 : refactorTrig p
            · rw [if_pos a5]; exact h5 a0 a1 a2 a3 a4 a5
            · rw [if_neg a5]
              by_cases a6 : genBothTrig p
              · rw [if_pos a6]; exact h6 a0 a1 a2 a3 a4 a5 a6
              · rw [if_neg a6]
                by_cases a7 : genMultiTrig p
                · rw [if_pos a7]; exact h7 a0 a1 a2 a3 a4 a5 a6 a7
                · rw [if_neg a7]
                  by_cases a8 : summaryTrigP p
                  · rw [if_pos a8]; exact h8 a0 a1 a2 a3 a4 a5 a6 a7 a8
                  · rw [if_neg a8]
                    by_cases a9 : mathTrigP p
                    · rw [if_pos a9]; exact h9 a0 a1 a2 a3 a4 a5 a6 a7 a8 a9
                    · rw [if_neg a9]
                      by_cases a10 : qaTrigP p
                      · rw [if_pos a10]; exact h10 a0 a1 a2 a3 a4 a5 a6 a7 a8 a9 a10
                      · rw [if_neg a10]
                        exact h11 a0 a1 a2 a3 a4 a5 a6 a7 a8 a9 a10

/-! Complexity signals (classifier.py lines 834-979).  Signals 1-5 are shared
verbatim with `router.py`'s `_rule_based_classify`; signal 6 (research scope)
exists only in `classifier.py`. -/

def high_complexity : List String :=
  ["complex", "advanced", "sophisticated", "comprehensive", "full", "complete",
   "production", "enterprise", "scalable", "distributed", "concurrent",
   "async", "parallel"]

def low_complexity : List String :=
  ["simple", "basic", "quick", "small", "tiny", "minimal", "just", "only",
   "single", "one"]

def tech_depth : List String :=
  ["authentication", "authorization", "oauth", "jwt", "encryption", "database",
   "caching", "queue", "websocket", "graphql", "grpc", "kubernetes", "docker",
   "terraform", "cicd", "pipeline", "microservice", "architecture",
   "design pattern", "solid", "transaction", "rollback", "migration", "schema"]

def multi_file : List String :=
  ["multiple files", "several files", "across", "entire", "whole codebase",
   "all files", "project-wide", "repo"]

def research_scope : List String :=
  ["entire", "whole", "all", "every", "across", "throughout", "complete",
   "comprehensive", "full", "codebase", "repo"]

def numbered_tokens : List String :=
  ["1", "2", "3", "4", "5", "first", "second", "third"]

/-- Signal 1: prompt length score. -/
def lengthScore (wordCount : Nat) : ℚ :=
  if wordCount > 150 then 0.3
  else if wordCount > 75 then 0.2
  else if wordCount > 30 then 0.1
  else 0

def high_matches (p : List Char) : Nat := countKw high_complexity p

def low_matches (p : List Char) : Nat := countKw low_complexity p

/-- Signal 3 count: `" and "` conjunctions + bullet markers + numbered tokens. -/
def multi_req (p : List Char) : Nat :=
  countSub " and ".data p
    + (countSub "- ".data p + countSub "* ".data p + countSub "• ".data p)
    + (splitWs p).countP
        (fun w => numbered_tokens.any (fun t => rstripChars ".):".data w == t.data))

def depth_matches (p : List Char) : Nat := countKw tech_depth p

def multi_file_hit (p : List Char) : Bool := anyKw multi_file p

def scope_matches (p : List Char) : Nat := countKw research_scope p

/-- Running complexity sum before the base offset and clamping
(classifier.py lines 834-979), given the already-decided task type. -/
def complexitySum (p : List Char) (taskType : String) : ℚ :=
  lengthScore (splitWs p).length
    + (if high_matches p > 0 then 0.15 * (high_matches p : ℚ) else 0)
    + (if low_matches p > 0 then -(0.1 * (low_matches p : ℚ)) else 0)
    + (if multi_req p > 3 then 0.25 else if multi_req p > 1 then 0.15 else 0)
    + (if depth_matches p > 2 then 0.2 else if depth_matches p > 0 then 0.1 else 0)
    + (if multi_file_hit p then 0.15 else 0)
    + (if taskType == "research" then
        (if scope_matches p ≥ 2 then 0.20 else if scope_matches p == 1 then 0.10 else 0)
       else 0)

/-- Complexity-signal diagnostic tags, mirroring the appends in the source. -/
def complexitySignals (p : List Char) (taskType : String) : List String :=
  (if (splitWs p).length > 150 then ["very_long"]
   else if (splitWs p).length > 75 then ["long"]
   else if (splitWs p).length > 30 then ["medium"] else ["short"])
    ++ (if high_matches p > 0 then ["high_kw:" ++ toString (high_matches p)] else [])
    ++ (if low_matches p > 0 then ["low_kw:" ++ toString (low_matches p)] else [])
    ++ (if multi_req p > 3 then ["multi_req:" ++ toString (multi_req p)]
        else if multi_req p > 1 then ["multi_req:" ++ toString (multi_req p)] else [])
    ++ (if depth_matches p > 2 then ["tech_depth:" ++ toString (depth_matches p)]
        else if depth_matches p > 0 then ["tech_depth:" ++ toString (depth_matches p)]
        else [])
    ++ (if multi_file_hit p then ["multi_file"] else [])
    ++ (if taskType == "research" then
          (if scope_matches p ≥ 2 then ["research_scope:" ++ toString (scope_matches p)]
           else if scope_matches p == 1 then
             ["research_scope:" ++ toString (scope_matches p)]
           else [])
        else [])

/-- `complexity_score = max(0.1, min(0.95, complexity_score + 0.3))`. -/
def complexityRaw (p : List Char) (taskType : String) : ℚ :=
  max 0.1 (min 0.95 (complexitySum p taskType + 0.3))

/-- Tier bucketing (classifier.py lines 984-989). -/
def tierOf (s : ℚ) : String :=
  if s < 0.35 then "simple" else if s < 0.65 then "moderate" else "complex"

/-- `classify_prompt` (classifier.py lines 503-1005, rule-based). -/
def classify_prompt (prompt : String) : Classification :=
  let p := lower prompt
  let t := taskTypeOf p
  let raw := complexityRaw p t.1
  { taskType := t.1
    taskTypeConfidence := round2 t.2.1
    complexity := tierOf raw
    complexityScore := round2 raw
    taskSignals := t.2.2
    complexitySignals := complexitySignals p t.1 }

end Classifier

/-! ### Exact-arithmetic helper lemmas

Every quantity the source rounds with `round(x, 2)` is an integer multiple
of 1/100 (complexity contributions are multiples of 1/20), so `round2` is
the identity on all of them. -/

/-- `q` is an integer multiple of 1/20. -/
def IsGrid (q : ℚ) : Prop := ∃ n : ℤ, q * 20 = (n : ℚ)

/-- `q` is an integer multiple of 1/100. -/
def IsCenti (q : ℚ) : Prop := ∃ n : ℤ, q * 100 = (n : ℚ)

theorem isGrid_add {a b : ℚ} (ha : IsGrid a) (hb : IsGrid b) : IsGrid (a + b) := by
  obtain ⟨n, hn⟩ := ha; obtain ⟨m, hm⟩ := hb
  exact ⟨n + m, by push_cast; rw [add_mul, hn, hm]⟩

theorem isGrid_min {a b : ℚ} (ha : IsGrid a) (hb : IsGrid b) : IsGrid (min a b) := by
  rcases min_choice a b with h | h <;> rw [h]
  · exact ha
  · exact hb

theorem isGrid_max {a b : ℚ} (ha : IsGrid a) (hb : IsGrid b) : IsGrid (max a b) := by
  rcases max_choice a b with h | h <;> rw [h]
  · exact ha
  · exact hb

theorem round2_centi {q : ℚ} (h : IsCenti q) : round2 q = q := by
  obtain ⟨n, hn⟩ := h
  exact round2_eq_self q n hn

theorem round2_grid {q : ℚ} (h : IsGrid q) : round2 q = q := by
  obtain ⟨n, hn⟩ := h
  exact round2_eq_self q (5 * n) (by push_cast; linear_combination 5 * hn)

namespace Classifier

theorem lengthScore_grid (wc : Nat) : IsGrid (lengthScore wc) := by
  unfold lengthScore
  split_ifs
  · exact ⟨6, by norm_num⟩
  · exact ⟨4, by norm_num⟩
  · exact ⟨2, by norm_num⟩
  · exact ⟨0, by norm_num⟩

theorem complexitySum_grid (p : List Char) (tt : String) : IsGrid (complexitySum p tt) := by
  unfold complexitySum
  refine isGrid_add (isGrid_add (isGrid_add (isGrid_add (isGrid_add
    (isGrid_add (lengthScore_grid _) ?_) ?_) ?_) ?_) ?_) ?_
  · split_ifs
    · exact ⟨3 * (high_matches p : ℤ), by push_cast; ring⟩
    · exact ⟨0, by norm_num⟩
  · split_ifs
    · exact ⟨-(2 * (low_matches p : ℤ)), by push_cast; ring⟩
    · exact ⟨0, by norm_num⟩
  · split_ifs
    · exact ⟨5, by norm_num⟩
    · exact ⟨3, by norm_num⟩
    · exact ⟨0, by norm_num⟩
  · split_ifs
    · exact ⟨4, by norm_num⟩
    · exact ⟨2, by norm_num⟩
    · exact ⟨0, by norm_num⟩
  · split_ifs
    · exact ⟨3, by norm_num⟩
    · exact ⟨0, by norm_num⟩
  · split_ifs
    · exact ⟨4, by norm_num⟩
    · exact ⟨2, by norm_num⟩
    · exact ⟨0, by norm_num⟩
    · exact ⟨0, by norm_num⟩

theorem complexityRaw_grid (p : List Char) (tt : String) : IsGrid (complexityRaw p tt) := by
  unfold complexityRaw
  exact isGrid_max ⟨2, by norm_num⟩
    (isGrid_min ⟨19, by norm_num⟩ (isGrid_add (complexitySum_grid p tt) ⟨6, by norm_num⟩))

/-- C3: for every prompt the returned complexity score lies in [0.1, 0.95]
and the complexity tier is exactly the two-threshold bucketing (0.35, 0.65)
of that returned score (`tierOf`). -/
theorem classify_prompt_complexity_bounds_and_tier (prompt : String) :
    0.1 ≤ (classify_prompt prompt).complexityScore ∧
    (classify_prompt prompt).complexityScore ≤ 0.95 ∧
    (classify_prompt prompt).complexity
      = tierOf (classify_prompt prompt).complexityScore := by
  have hid : round2 (complexityRaw (lower prompt) (taskTypeOf (lower prompt)).1)
      = complexityRaw (lower prompt) (taskTypeOf (lower prompt)).1 :=
    round2_grid (complexityRaw_grid _ _)
  have hscore : (classify_prompt prompt).complexityScore
      = complexityRaw (lower prompt) (taskTypeOf (lower prompt)).1 := by
    have h0 : (classify_prompt prompt).complexityScore
        = round2 (complexityRaw (lower prompt) (taskTypeOf (lower prompt)).1) := rfl
    rw [h0, hid]
  have htier : (classify_prompt prompt).complexity
      = tierOf (complexityRaw (lower prompt) (taskTypeOf (lower prompt)).1) := rfl
  refine ⟨?_, ?_, ?_⟩
  · rw [hscore]; exact le_max_left _ _
  · rw [hscore]; exact max_le (by norm_num) (min_le_left _ _)
  · rw [htier, hscore]

/-- Shape of the `min(formula, 0.95)` confidence values of the cascade. -/
theorem min95_conf (a : ℚ) (n : ℤ) (h5 : 0.5 ≤ a) (hn : a * 100 = (n : ℚ)) :
    (0.5 ≤ min a 0.95 ∧ min a 0.95 ≤ 0.95) ∧ IsCenti (min a 0.95) := by
  refine ⟨⟨le_min h5 (by norm_num), min_le_right _ _⟩, ?_⟩
  rcases min_choice a 0.95 with h | h <;> rw [h]
  · exact ⟨n, hn⟩
  · exact ⟨95, by norm_num⟩

theorem taskType_conf_range (p : List Char) :
    (0.5 ≤ (taskTypeOf p).2.1 ∧ (taskTypeOf p).2.1 ≤ 0.95) ∧
      IsCenti (taskTypeOf p).2.1 := by
  have hr : (0 : ℚ) ≤ (research_matches p : ℚ) * 0.03 := by positivity
  have hp : (0 : ℚ) ≤ (pattern_matches p : ℚ) * 0.05 := by positivity
  have hv : (0 : ℚ) ≤ (review_matches p : ℚ) * 0.05 := by positivity
  have hd : (0 : ℚ) ≤ (debug_matches p : ℚ) * 0.05 := by positivity
  have he : (0 : ℚ) ≤ (explain_matches p : ℚ) * 0.05 := by positivity
  have hf : (0 : ℚ) ≤ (refactor_matches p : ℚ) * 0.05 := by positivity
  have hg : (0 : ℚ) ≤ (gen_matches p : ℚ) * 0.03 := by positivity
  have hc : (0 : ℚ) ≤ (context_matches p : ℚ) * 0.03 := by positivity
  refine taskTypeOf_elim p
    (fun t => (0.5 ≤ t.2.1 ∧ t.2.1 ≤ 0.95) ∧ IsCenti t.2.1)
    ?_ ?_ ?_ ?_ ?_ ?_ ?_ ?_ ?_ ?_ ?_ ?_ <;> intros
  · exact min95_conf _ (80 + 3 * (research_matches p : ℤ) + 5 * (pattern_matches p : ℤ))
      (by linarith) (by push_cast; ring)
  · show (0.5 ≤ (0.75 : ℚ) ∧ (0.75 : ℚ) ≤ 0.95) ∧ IsCenti 0.75
    exact ⟨⟨by norm_num, by norm_num⟩, 75, by norm_num⟩
  · exact min95_conf _ (70 + 5 * (review_matches p : ℤ)) (by linarith) (by push_cast; ring)
  · exact min95_conf _ (70 + 5 * (debug_matches p : ℤ)) (by linarith) (by push_cast; ring)
  · exact min95_conf _ (70 + 5 * (explain_matches p : ℤ)) (by linarith) (by push_cast; ring)
  · exact min95_conf _ (70 + 5 * (refactor_matches p : ℤ)) (by linarith) (by push_cast; ring)
  · exact min95_conf _ (70 + 3 * (gen_matches p : ℤ) + 3 * (context_matches p : ℤ))
      (by linarith) (by push_cast; ring)
  · show (0.5 ≤ (0.7 : ℚ) ∧ (0.7 : ℚ) ≤ 0.95) ∧ IsCenti 0.7
    exact ⟨⟨by norm_num, by norm_num⟩, 70, by norm_num⟩
  · show (0.5 ≤ (0.8 : ℚ) ∧ (0.8 : ℚ) ≤ 0.95) ∧ IsCenti 0.8
    exact ⟨⟨by norm_num, by norm_num⟩, 80, by norm_num⟩
  · show (0.5 ≤ (0.75 : ℚ) ∧ (0.75 : ℚ) ≤ 0.95) ∧ IsCenti 0.75
    exact ⟨⟨by norm_num, by norm_num⟩, 75, by norm_num⟩
  · show (0.5 ≤ (0.6 : ℚ) ∧ (0.6 : ℚ) ≤ 0.95) ∧ IsCenti 0.6
    exact ⟨⟨by norm_num, by norm_num⟩, 60, by norm_num⟩
  · show (0.5 ≤ (0.5 : ℚ) ∧ (0.5 : ℚ) ≤ 0.95) ∧ IsCenti 0.5
    exact ⟨⟨by norm_num, by norm_num⟩, 50, by norm_num⟩

/-- C10: for every prompt the rule-based task-type confidence returned by
`classify_prompt` lies in [0.5, 0.95]. -/
theorem classify_prompt_confidence_range (prompt : String) :
    0.5 ≤ (classify_prompt prompt).taskTypeConfidence ∧
    (classify_prompt prompt).taskTypeConfidence ≤ 0.95 := by
  obtain ⟨⟨h5, h95⟩, hcent⟩ := taskType_conf_range (lower prompt)
  have h0 : (classify_prompt prompt).taskTypeConfidence
      = round2 (taskTypeOf (lower prompt)).2.1 := rfl
  rw [h0, round2_centi hcent]
  exact ⟨h5, h95⟩

/-! ### C4: the cascade is a fixed-priority first-match rule list -/

/-- A cascade rule: a trigger on the lowered prompt, and the outcome
(task type, confidence) it assigns when it is the first to fire. -/
structure CascadeRule where
  name : String
  trig : List Char → Bool
  out : List Char → String × ℚ

/-- Declarative first-match semantics over an ordered rule list: the first
rule whose trigger holds determines the result, rules below it are never
consulted; if none fires the default (code generation, 0.5) applies. -/
def firstFire : List CascadeRule → List Char → String × ℚ
  | [], _ => ("code_generation", 0.5)
  | r :: rs, p => if r.trig p then r.out p else firstFire rs p

/-- The classifier cascade as an ordered rule list, in spec order:
research/exploration, code review, debugging, explanation, refactor/rewrite,
code generation, summarization, math/algorithmic, open question-answering
(the default is `firstFire`'s base case). -/
def cascadeRules : List CascadeRule :=
  [⟨"research", fun q => decide (researchStrongTrig q ∨ researchWeakTrig q),
    fun q => if researchStrongTrig q then ("research", ruleConf q 0)
      else ("research", ruleConf q 1)⟩,
   ⟨"code_review", fun q => decide (reviewTrig q),
    fun q => ("code_review", ruleConf q 2)⟩,
   ⟨"code_debugging", fun q => decide (debugTrig q),
    fun q => ("code_debugging", ruleConf q 3)⟩,
   ⟨"code_explanation", fun q => decide (explainTrig q),
    fun q => ("code_explanation", ruleConf q 4)⟩,
   ⟨"rewrite", fun q => decide (refactorTrig q),
    fun q => ("rewrite", ruleConf q 5)⟩,
   ⟨"code_generation", fun q => decide (genBothTrig q ∨ genMultiTrig q),
    fun q => if genBothTrig q then ("code_generation", ruleConf q 6)
      else ("code_generation", ruleConf q 7)⟩,
   ⟨"summarization", fun q => decide (summaryTrigP q),
    fun q => ("summarization", ruleConf q 8)⟩,
   ⟨"math", fun q => decide (mathTrigP q),
    fun q => ("math", ruleConf q 9)⟩,
   ⟨"open_qa", fun q => decide (qaTrigP q),
    fun q => ("open_qa", ruleConf q 10)⟩]

/-- C4: for every prompt, the task type and confidence computed by the
`classify_prompt` cascade equal the first-match evaluation of the fixed
ordered rule list `cascadeRules` (research/exploration, code review,
debugging, explanation, refactor/rewrite, code generation, summarization,
math/algorithmic, open question-answering, default): the first rule whose
trigger holds determines the result and no lower-priority rule affects it. -/
theorem classify_prompt_cascade_first_match (prompt : String) :
    ((classify_prompt prompt).taskType,
      (taskTypeOf (lower prompt)).2.1) = firstFire cascadeRules (lower prompt) := by
  have hfield : (classify_prompt prompt).taskType = (taskTypeOf (lower prompt)).1 := rfl
  rw [hfield]
  refine taskTypeOf_elim (lower prompt)
    (fun t => (t.1, t.2.1) = firstFire cascadeRules (lower prompt))
    ?_ ?_ ?_ ?_ ?_ ?_ ?_ ?_ ?_ ?_ ?_ ?_
  · intro a0
    simp [firstFire, cascadeRules, a0]
  · intro a0 a1
    simp [firstFire, cascadeRules, a0, a1]
  · intro a0 a1 a2
    simp [firstFire, cascadeRules, a0, a1, a2]
  · intro a0 a1 a2 a3
    simp [firstFire, cascadeRules, a0, a1, a2, a3]
  · intro a0 a1 a2 a3 a4
    obtain ⟨a4a, a4b⟩ := a4
    rcases a4b with hb | hb
    · simp [firstFire, cascadeRules, a0, a1, a2, a3, a4a, hb]
    · have hb2 : '?' ∈ lower prompt := by simpa using hb
      simp [firstFire, cascadeRules, a0, a1, a2, a3, a4a, hb2]
  · intro a0 a1 a2 a3 a4 a5
    simp [firstFire, cascadeRules, a0, a1, a2, a3, a4, a5]
  · intro a0 a1 a2 a3 a4 a5 a6
    simp [firstFire, cascadeRules, a0, a1, a2, a3, a4, a5, a6]
    rw [if_pos a6]
  · intro a0 a1 a2 a3 a4 a5 a6 a7
    simp [firstFire, cascadeRules, a0, a1, a2, a3, a4, a5, a6, a7]
  · intro a0 a1 a2 a3 a4 a5 a6 a7 a8
    simp [firstFire, cascadeRules, a0, a1, a2, a3, a4, a5, a6, a7, a8]
  · intro a0 a1 a2 a3 a4 a5 a6 a7 a8 a9
    simp [firstFire, cascadeRules, a0, a1, a2, a3, a4, a5, a6, a7, a8, a9]
  · intro a0 a1 a2 a3 a4 a5 a6 a7 a8 a9 a10
    simp [firstFire, cascadeRules, a0, a1, a2, a3, a4, a5, a6, a7, a8, a9, a10]
  · intro a0 a1 a2 a3 a4 a5 a6 a7 a8 a9 a10
    simp [firstFire, cascadeRules, a0, a1, a2, a3, a4, a5, a6, a7, a8, a9, a10]
    rfl

/-! ### C6: the code-generation rule of the cascade -/

/-- None of the rules above the code-generation rule fires. -/
abbrev reaches_gen_rule (p : List Char) : Prop :=
  ¬researchStrongTrig p ∧ ¬researchWeakTrig p ∧ ¬reviewTrig p ∧ ¬debugTrig p ∧
    ¬explainTrig p ∧ ¬refactorTrig p

/-- C6 counterexample: the prompt "write and create stuff" reaches the
code-generation rule with two action keywords and zero context keywords, and
the rule nevertheless assigns code generation (confidence 0.7, the
`gen_matches >= 2` branch) — refuting the claim that the rule requires a
context keyword. -/
theorem code_generation_rule_counterexample :
    reaches_gen_rule (lower "write and create stuff")
    ∧ gen_matches (lower "write and create stuff") = 2
    ∧ context_matches (lower "write and create stuff") = 0
    ∧ (classify_prompt "write and create stuff").taskType = "code_generation"
    ∧ (classify_prompt "write and create stuff").taskTypeConfidence = 0.7 := by
  refine ⟨by decide, by decide, by decide, by decide, ?_⟩
  have h : (classify_prompt "write and create stuff").taskTypeConfidence
      = round2 0.7 := rfl
  rw [h, round2_centi ⟨70, by norm_num⟩]

/-- C6 amended: a prompt reaching the code-generation rule is assigned
code generation by that rule (task type code generation with a confidence
other than the 0.5 default) exactly when it has both an action keyword and a
context keyword, or at least two action keywords; with at most one action
keyword and no context keyword the rule does not fire. -/
theorem code_generation_rule_trigger_characterization (prompt : String)
    (h : reaches_gen_rule (lower prompt)) :
    ((classify_prompt prompt).taskType = "code_generation"
        ∧ (classify_prompt prompt).taskTypeConfidence ≠ 0.5)
      ↔ (genBothTrig (lower prompt) ∨ genMultiTrig (lower prompt)) := by
  obtain ⟨n0, n1, n2, n3, n4, n5⟩ := h
  have htt : (classify_prompt prompt).taskType = (taskTypeOf (lower prompt)).1 := rfl
  have hcf : (classify_prompt prompt).taskTypeConfidence
      = round2 (taskTypeOf (lower prompt)).2.1 := rfl
  rw [htt, hcf]
  refine taskTypeOf_elim (lower prompt)
    (fun t => (t.1 = "code_generation" ∧ round2 t.2.1 ≠ 0.5)
      ↔ (genBothTrig (lower prompt) ∨ genMultiTrig (lower prompt)))
    ?_ ?_ ?_ ?_ ?_ ?_ ?_ ?_ ?_ ?_ ?_ ?_
  · intro a0; exact absurd a0 n0
  · intro _ a1; exact absurd a1 n1
  · intro _ _ a2; exact absurd a2 n2
  · intro _ _ _ a3; exact absurd a3 n3
  · intro _ _ _ _ a4; exact absurd a4 n4
  · intro _ _ _ _ _ a5; exact absurd a5 n5
  · intro _ _ _ _ _ _ a6
    refine iff_of_true ⟨rfl, ?_⟩ (Or.inl a6)
    obtain ⟨hg, hc⟩ := a6
    have hg1 : (1 : ℚ) ≤ (gen_matches (lower prompt) : ℚ) := by
      exact_mod_cast Nat.one_le_iff_ne_zero.mpr (Nat.pos_iff_ne_zero.mp hg)
    have hc1 : (1 : ℚ) ≤ (context_matches (lower prompt) : ℚ) := by
      exact_mod_cast Nat.one_le_iff_ne_zero.mpr (Nat.pos_iff_ne_zero.mp hc)
    have hlow : (0.76 : ℚ) ≤ ruleConf (lower prompt) 6 := by
      refine le_min (by nlinarith) (by norm_num)
    have hcent : IsCenti (ruleConf (lower prompt) 6) :=
      (min95_conf _ (70 + 3 * (gen_matches (lower prompt) : ℤ)
        + 3 * (context_matches (lower prompt) : ℤ))
        (by nlinarith) (by push_cast; ring)).2
    rw [round2_centi hcent]
    intro heq
    rw [heq] at hlow
    norm_num at hlow
  · intro _ _ _ _ _ _ _ a7
    refine iff_of_true ⟨rfl, ?_⟩ (Or.inr a7)
    have h7c : round2 (ruleConf (lower prompt) 7) = ruleConf (lower prompt) 7 :=
      round2_centi ⟨70, by show (0.7 : ℚ) * 100 = ((70 : ℤ) : ℚ); norm_num⟩
    rw [h7c]
    show (0.7 : ℚ) ≠ 0.5
    norm_num
  · intro _ _ _ _ _ _ n6 n7 _
    refine iff_of_false (fun hx => ?_) (fun hx => hx.elim n6 n7)
    simpa using hx.1
  · intro _ _ _ _ _ _ n6 n7 _ _
    refine iff_of_false (fun hx => ?_) (fun hx => hx.elim n6 n7)
    simpa using hx.1
  · intro _ _ _ _ _ _ n6 n7 _ _ _
    refine iff_of_false (fun hx => ?_) (fun hx => hx.elim n6 n7)
    simpa using hx.1
  · intro _ _ _ _ _ _ n6 n7 _ _ _
    refine iff_of_false (fun hx => ?_) (fun hx => hx.elim n6 n7)
    refine hx.2 ?_
    show round2 (0.5 : ℚ) = 0.5
    exact round2_centi ⟨50, by norm_num⟩

/-- Witness for the amended C6 at a concrete prompt that has one action
keyword and one context keyword. -/
theorem code_generation_rule_trigger_witness :
    (classify_prompt "write a test").taskType = "code_generation"
      ∧ (classify_prompt "write a test").taskTypeConfidence ≠ 0.5 :=
  (code_generation_rule_trigger_characterization "write a test" (by decide)).mpr
    (Or.inl (by decide))

/-! ### C9: malformed / keyword-free prompts fall through to the default -/

/-- No cascade rule fires at all. -/
abbrev no_rule_fires (p : List Char) : Prop :=
  reaches_gen_rule p ∧ ¬genBothTrig p ∧ ¬genMultiTrig p ∧ ¬summaryTrigP p ∧
    ¬mathTrigP p ∧ ¬qaTrigP p

/-- C9: `classify_prompt` is a total function (the embedding never raises);
any prompt on which no cascade rule fires — including the empty string —
falls through to the default task type code generation with confidence
exactly 0.5; and concretely, "xyz" yields the default code generation with
confidence 0.5 and tier simple, its complexity score 0.3 being exactly the
clamped length signal plus the 0.3 base offset. -/
theorem classify_prompt_default_fallback :
    (∀ prompt : String, no_rule_fires (lower prompt) →
      (classify_prompt prompt).taskType = "code_generation" ∧
        (classify_prompt prompt).taskTypeConfidence = 0.5)
    ∧ (classify_prompt "xyz").taskType = "code_generation"
    ∧ (classify_prompt "xyz").taskTypeConfidence = 0.5
    ∧ (classify_prompt "xyz").complexity = "simple"
    ∧ (classify_prompt "xyz").complexityScore = 0.3
    ∧ (classify_prompt "xyz").complexityScore
        = max 0.1 (min 0.95 (lengthScore (splitWs (lower "xyz")).length + 0.3)) := by
  have hraw : complexityRaw (lower "xyz") (taskTypeOf (lower "xyz")).1 = 0.3 := by
    have h1 : (splitWs (lower "xyz")).length = 1 := by decide
    have h2 : high_matches (lower "xyz") = 0 := by decide
    have h3 : low_matches (lower "xyz") = 0 := by decide
    have h4 : multi_req (lower "xyz") = 0 := by decide
    have h5 : depth_matches (lower "xyz") = 0 := by decide
    have h6 : multi_file_hit (lower "xyz") = false := by decide
    have h7 : ((taskTypeOf (lower "xyz")).1 == "research") = false := by decide
    unfold complexityRaw complexitySum
    rw [h1, h2, h3, h4, h5, h6, h7]
    norm_num [lengthScore, min_def, max_def]
  have hconf : (classify_prompt "xyz").taskTypeConfidence = round2 0.5 := rfl
  have hscore : (classify_prompt "xyz").complexityScore
      = round2 (complexityRaw (lower "xyz") (taskTypeOf (lower "xyz")).1) := rfl
  have htier : (classify_prompt "xyz").complexity
      = tierOf (complexityRaw (lower "xyz") (taskTypeOf (lower "xyz")).1) := rfl
  have hlen : (splitWs (lower "xyz")).length = 1 := by decide
  refine ⟨?_, by decide, ?_, ?_, ?_, ?_⟩
  · intro prompt h
    obtain ⟨⟨n0, n1, n2, n3, n4, n5⟩, n6, n7, n8, n9, n10⟩ := h
    have htt : (classify_prompt prompt).taskType = (taskTypeOf (lower prompt)).1 := rfl
    have hcf : (classify_prompt prompt).taskTypeConfidence
        = round2 (taskTypeOf (lower prompt)).2.1 := rfl
    rw [htt, hcf]
    refine taskTypeOf_elim (lower prompt)
      (fun t => t.1 = "code_generation" ∧ round2 t.2.1 = 0.5)
      ?_ ?_ ?_ ?_ ?_ ?_ ?_ ?_ ?_ ?_ ?_ ?_
    · intro a0; exact absurd a0 n0
    · intro _ a1; exact absurd a1 n1
    · intro _ _ a2; exact absurd a2 n2
    · intro _ _ _ a3; exact absurd a3 n3
    · intro _ _ _ _ a4; exact absurd a4 n4
    · intro _ _ _ _ _ a5; exact absurd a5 n5
    · intro _ _ _ _ _ _ a6; exact absurd a6 n6
    · intro _ _ _ _ _ _ _ a7; exact absurd a7 n7
    · intro _ _ _ _ _ _ _ _ a8; exact absurd a8 n8
    · intro _ _ _ _ _ _ _ _ _ a9; exact absurd a9 n9
    · intro _ _ _ _ _ _ _ _ _ _ a10; exact absurd a10 n10
    · intro _ _ _ _ _ _ _ _ _ _ _
      refine ⟨rfl, ?_⟩
      show round2 (0.5 : ℚ) = 0.5
      exact round2_centi ⟨50, by norm_num⟩
  · rw [hconf, round2_centi ⟨50, by norm_num⟩]
  · rw [htier, hraw]
    norm_num [tierOf]
  · rw [hscore, hraw, round2_centi ⟨30, by norm_num⟩]
  · rw [hscore, hraw, round2_centi ⟨30, by norm_num⟩, hlen]
    norm_num [lengthScore, min_def, max_def]

/-- Witness for C9 applied at the empty prompt. -/
theorem classify_prompt_default_fallback_witness :
    (classify_prompt "").taskType = "code_generation" :=
  (classify_prompt_default_fallback.1 "" (by decide)).1

/-! ### Specialized-task detector (`detect_specialized_task`, classifier.py 420-495) -/

/-- A Specialized Task Rule (one entry of `SPECIALIZED_TASKS`); the
`boost` field embeds the optional `confidence_boost` (default 0). -/
structure SpecRule where
  name : String
  keywords : List String
  single_match_keywords : List String
  agent : String
  mode : String
  model_tier : String
  boost : ℚ := 0
  reasoning : String

/-- `SPECIALIZED_TASKS["planning"]`. -/
def planning_rule : SpecRule :=
  { name := "planning"
    keywords := ["plan the", "plan for", "create a plan", "implementation plan",
      "design the implementation", "how should we implement", "strategy for",
      "outline the approach", "roadmap for", "plan implementation"]
    single_match_keywords := ["plan the", "create a plan", "implementation plan"]
    agent := "cursor", mode := "plan", model_tier := "complex"
    reasoning := "Cursor" ++ String.singleton (Char.ofNat 39)
      ++ "s plan mode provides structured implementation planning" }

/-- `SPECIALIZED_TASKS["architecture"]`. -/
def architecture_rule : SpecRule :=
  { name := "architecture"
    keywords := ["architect", "system design", "design the architecture",
      "database schema", "api design", "data model", "microservice",
      "infrastructure design", "scalability design", "system architecture"]
    single_match_keywords := ["system design", "database schema", "api design",
      "system architecture"]
    agent := "cursor", mode := "plan", model_tier := "complex"
    reasoning := "Cursor excels at multi-file architectural analysis" }

/-- `SPECIALIZED_TASKS["code_review"]`. -/
def code_review_rule : SpecRule :=
  { name := "code_review"
    keywords := ["review the", "review this", "code review", "audit the",
      "check for issues", "pr review", "review changes", "review my code",
      "review staged"]
    single_match_keywords := ["code review", "pr review", "review staged"]
    agent := "cursor", mode := "ask", model_tier := "complex"
    reasoning := "Cursor" ++ String.singleton (Char.ofNat 39)
      ++ "s ask mode for thorough code quality review" }

/-- `SPECIALIZED_TASKS["security_review"]`. -/
def security_review_rule : SpecRule :=
  { name := "security_review"
    keywords := ["security review", "security audit", "check for vulnerabilities",
      "security analysis", "penetration test", "vulnerability scan",
      "security assessment", "threat model"]
    single_match_keywords := ["security review", "security audit",
      "vulnerability scan"]
    agent := "copilot", mode := "default", model_tier := "complex"
    reasoning := "Copilot with Opus provides deep security analysis requiring maximum reasoning" }

/-- `SPECIALIZED_TASKS["refactoring"]`. -/
def refactoring_rule : SpecRule :=
  { name := "refactoring"
    keywords := ["refactor the", "refactor this", "clean up the", "reorganize the",
      "consolidate the", "modernize the", "restructure the", "improve the code",
      "technical debt", "dead code"]
    single_match_keywords := ["refactor the", "refactor this", "technical debt"]
    agent := "cursor", mode := "agent", model_tier := "complex"
    reasoning := "Cursor" ++ String.singleton (Char.ofNat 39)
      ++ "s agent mode is repo-aware for safe multi-file refactoring" }

/-- `SPECIALIZED_TASKS["debugging_complex"]`. -/
def debugging_complex_rule : SpecRule :=
  { name := "debugging_complex"
    keywords := ["race condition", "memory leak", "deadlock", "async bug",
      "concurrency issue", "intermittent failure", "timing issue",
      "hard to reproduce", "flaky test", "thread safety", "mutex", "semaphore",
      "lock contention"]
    single_match_keywords := ["race condition", "memory leak", "deadlock",
      "concurrency issue", "intermittent failure", "flaky test"]
    agent := "copilot", mode := "default", model_tier := "complex"
    boost := 0.05
    reasoning := "Copilot with Opus for complex debugging requiring deep reasoning" }

/-- `SPECIALIZED_TASKS["debugging"]`. -/
def debugging_rule : SpecRule :=
  { name := "debugging"
    keywords := ["debug the", "debug this", "fix the bug", "troubleshoot",
      "diagnose the", "find the issue", "why is.*failing", "why is.*broken"]
    single_match_keywords := ["debug the", "troubleshoot", "diagnose the"]
    agent := "cursor", mode := "agent", model_tier := "complex"
    reasoning := "Cursor" ++ String.singleton (Char.ofNat 39)
      ++ "s agent mode for systematic debugging with repo context" }

/-- `SPECIALIZED_TASKS["research"]`. -/
def research_rule : SpecRule :=
  { name := "research"
    keywords := ["research how", "explore how", "find all", "understand how",
      "analyze how", "investigate the", "discover", "locate all", "search for",
      "examine the", "how is.*implemented", "where is.*used"]
    single_match_keywords := ["research how", "find all", "understand how",
      "analyze how"]
    agent := "gemini", mode := "read", model_tier := "complex"
    reasoning := "Gemini excels at codebase analysis and pattern recognition" }

/-- `SPECIALIZED_TASKS["documentation"]`. -/
def documentation_rule : SpecRule :=
  { name := "documentation"
    keywords := ["document the", "write docs", "update readme", "add jsdoc",
      "add comments", "explain the code", "document this", "write documentation"]
    single_match_keywords := ["write docs", "write documentation", "update readme"]
    agent := "gemini", mode := "edit", model_tier := "complex"
    reasoning := "Gemini produces clear, well-structured documentation" }

/-- `SPECIALIZED_TASKS["code_generation"]`. -/
def code_generation_rule : SpecRule :=
  { name := "code_generation"
    keywords := ["implement the", "implement this", "write the code", "create the",
      "build the", "add a new", "generate the", "scaffold"]
    single_match_keywords := ["implement the", "write the code", "build the"]
    agent := "gemini", mode := "edit", model_tier := "complex"
    reasoning := "Gemini is the primary code generation engine with gemini-3-pro" }

/-- `SPECIALIZED_TASKS["complex_analysis"]`. -/
def complex_analysis_rule : SpecRule :=
  { name := "complex_analysis"
    keywords := ["deep analysis", "comprehensive review", "thorough analysis",
      "in-depth review", "complex reasoning", "detailed analysis"]
    single_match_keywords := ["deep analysis", "comprehensive review",
      "thorough analysis"]
    agent := "copilot", mode := "default", model_tier := "complex"
    reasoning := "Copilot with Opus for tasks requiring maximum reasoning depth" }

/-- `SPECIALIZED_TASKS["algorithms"]`. -/
def algorithms_rule : SpecRule :=
  { name := "algorithms"
    keywords := ["algorithm for", "optimize the", "time complexity",
      "space complexity", "efficient implementation", "big o",
      "data structure for", "sorting algorithm", "search algorithm",
      "optimize performance"]
    single_match_keywords := ["time complexity", "space complexity", "big o"]
    agent := "codex", mode := "high_reasoning", model_tier := "complex"
    reasoning := "Codex with high reasoning for algorithmic thinking and optimization" }

/-- `SPECIALIZED_TASKS["misc_coding"]`. -/
def misc_coding_rule : SpecRule :=
  { name := "misc_coding"
    keywords := ["utility", "helper function", "script for", "small task",
      "quick fix", "simple change", "minor update"]
    single_match_keywords := []
    agent := "codex", mode := "default", model_tier := "moderate"
    reasoning := "Codex handles miscellaneous coding tasks efficiently" }

/-- `SPECIALIZED_TASKS` (classifier.py lines 114-377), in declaration order. -/
def SPECIALIZED_TASKS : List SpecRule :=
  [planning_rule, architecture_rule, code_review_rule, security_review_rule, refactoring_rule, debugging_complex_rule, debugging_rule, research_rule, documentation_rule, code_generation_rule, complex_analysis_rule, algorithms_rule, misc_coding_rule]

/-- A Specialized Match (the dict built by `detect_specialized_task`). -/
structure SpecMatch where
  specialized_task : String
  agent : String
  mode : String
  model_tier : String
  reasoning : String
  confidence : ℚ
  matched_keywords : List String
deriving DecidableEq

/-- Supporting contextual terms of the single-keyword branch
(classifier.py lines 465-480). -/
def supporting_context : List String :=
  ["codebase", "project", "repo", "module", "component", "system",
   "authentication", "api", "database", "service", "handler"]

/-- The match dict a rule produces at a given confidence. -/
def mkMatch (r : SpecRule) (c : ℚ) (kws : List String) : SpecMatch :=
  { specialized_task := r.name, agent := r.agent, mode := r.mode,
    model_tier := r.model_tier, reasoning := r.reasoning, confidence := c,
    matched_keywords := kws }

/-- The candidate confidence (and matched keywords) a single rule produces
on the lowered prompt, following the three branches of the loop body:
a strong single-keyword hit (0.85 + boost, and the generic-keyword branches
are skipped), two or more generic hits (min(0.8 + 0.05·n, 0.95)), or exactly
one generic hit with a supporting contextual term (0.7). -/
def ruleCandidate (p : List Char) (r : SpecRule) : Option (ℚ × List String) :=
  let singles := r.single_match_keywords.filter (fun kw => containsSub kw.data p)
  if singles ≠ [] then
    some (0.85 + r.boost, singles)
  else
    let ms := r.keywords.filter (fun kw => containsSub kw.data p)
    if ms.length ≥ 2 then
      some (min (0.8 + (ms.length : ℚ) * 0.05) 0.95, ms)
    else if ms.length = 1 ∧ anyKw supporting_context p then
      some (0.7, ms)
    else
      none

/-- One iteration of the `for task_name, task_config in SPECIALIZED_TASKS`
loop: keep the accumulated best match, replacing it only on a strictly
greater candidate confidence (`if confidence > best_confidence`). -/
def specStep (p : List Char) (acc : Option SpecMatch × ℚ) (r : SpecRule) :
    Option SpecMatch × ℚ :=
  match ruleCandidate p r with
  | none => acc
  | some (c, kws) => if acc.2 < c then (some (mkMatch r c kws), c) else acc

/-- `detect_specialized_task` (classifier.py lines 420-495). -/
def detect_specialized_task (prompt : String) : Option SpecMatch :=
  (SPECIALIZED_TASKS.foldl (specStep (lower prompt)) (none, (0 : ℚ))).1

theorem specStep_skip (p : List Char) (r : SpecRule) (acc : Option SpecMatch × ℚ)
    (h : ruleCandidate p r = none) : specStep p acc r = acc := by
  simp [specStep, h]

theorem specStep_take (p : List Char) (r : SpecRule) (acc : Option SpecMatch × ℚ)
    (c : ℚ) (kws : List String) (h : ruleCandidate p r = some (c, kws))
    (hlt : acc.2 < c) : specStep p acc r = (some (mkMatch r c kws), c) := by
  simp [specStep, h, hlt]

theorem specStep_keep (p : List Char) (r : SpecRule) (acc : Option SpecMatch × ℚ)
    (c : ℚ) (kws : List String) (h : ruleCandidate p r = some (c, kws))
    (hlt : ¬acc.2 < c) : specStep p acc r = acc := by
  simp [specStep, h, hlt]

/-- Every branch of the loop body yields a candidate confidence of at
least 0.7 (using that the rule has a nonnegative confidence boost). -/
theorem ruleCandidate_ge_07 (p : List Char) (r : SpecRule) (hb : 0 ≤ r.boost)
    (c : ℚ) (kws : List String) (h : ruleCandidate p r = some (c, kws)) :
    0.7 ≤ c := by
  have hn : (0 : ℚ) ≤ ((r.keywords.filter
      (fun kw => containsSub kw.data p)).length : ℚ) * 0.05 := by positivity
  simp only [ruleCandidate] at h
  split_ifs at h with h1 h2 h3 <;>
    simp only [Option.some.injEq, Prod.mk.injEq, reduceCtorEq] at h
  · obtain ⟨hc, -⟩ := h
    rw [← hc]; linarith
  · obtain ⟨hc, -⟩ := h
    rw [← hc]
    exact le_min (by linarith) (by norm_num)
  · obtain ⟨hc, -⟩ := h
    rw [← hc]

/-- The best-match invariant of the detector loop: if a match is held, its
confidence equals the tracked best confidence and is at least 0.7. -/
theorem specFold_P (p : List Char) :
    ∀ (rs : List SpecRule) (acc : Option SpecMatch × ℚ),
      (∀ r ∈ rs, 0 ≤ r.boost) →
      (∀ m, acc.1 = some m → m.confidence = acc.2 ∧ 0.7 ≤ acc.2) →
      ∀ m, (rs.foldl (specStep p) acc).1 = some m →
        m.confidence = (rs.foldl (specStep p) acc).2 ∧
          0.7 ≤ (rs.foldl (specStep p) acc).2
  | [], _, _, hacc, m, h => hacc m h
  | r :: rest, acc, hb, hacc, m, h => by
    refine specFold_P p rest (specStep p acc r)
      (fun x hx => hb x (List.mem_cons_of_mem _ hx)) ?_ m h
    intro m' hm'
    rcases hc : ruleCandidate p r with - | ⟨c, kws⟩
    · rw [specStep_skip p r acc hc] at hm' ⊢
      exact hacc m' hm'
    · by_cases hlt : acc.2 < c
      · rw [specStep_take p r acc c kws hc hlt] at hm' ⊢
        simp only [Option.some.injEq] at hm'
        subst hm'
        exact ⟨rfl, ruleCandidate_ge_07 p r (hb r (List.mem_cons_self r rest)) c kws hc⟩
      · rw [specStep_keep p r acc c kws hc hlt] at hm' ⊢
        exact hacc m' hm'

/-- The tracked best confidence never decreases along the loop. -/
theorem specFold_mono (p : List Char) :
    ∀ (rs : List SpecRule) (acc : Option SpecMatch × ℚ),
      acc.2 ≤ (rs.foldl (specStep p) acc).2
  | [], _ => le_refl _
  | r :: rest, acc => by
    refine le_trans ?_ (specFold_mono p rest (specStep p acc r))
    rcases hc : ruleCandidate p r with - | ⟨c, kws⟩
    · rw [specStep_skip p r acc hc]
    · by_cases hlt : acc.2 < c
      · rw [specStep_take p r acc c kws hc hlt]
        exact le_of_lt hlt
      · rw [specStep_keep p r acc c kws hc hlt]

/-- The final best confidence dominates every rule's candidate confidence. -/
theorem specFold_dominates (p : List Char) :
    ∀ (rs : List SpecRule) (acc : Option SpecMatch × ℚ) (r : SpecRule),
      r ∈ rs → ∀ (c : ℚ) (kws : List String),
      ruleCandidate p r = some (c, kws) → c ≤ (rs.foldl (specStep p) acc).2
  | [], _, _, hr, _, _, _ => absurd hr (List.not_mem_nil _)
  | r0 :: rest, acc, r, hr, c, kws, hc => by
    rcases List.mem_cons.mp hr with rfl | hmem
    · refine le_trans ?_ (specFold_mono p rest (specStep p acc r))
      by_cases hlt : acc.2 < c
      · rw [specStep_take p r acc c kws hc hlt]
      · rw [specStep_keep p r acc c kws hc hlt]
        exact not_lt.mp hlt
    · exact specFold_dominates p rest (specStep p acc r0) r hmem c kws hc

/-- The final accumulator is either untouched or the exact candidate of one
of the rules of the list. -/
theorem specFold_attain (p : List Char) :
    ∀ (rs : List SpecRule) (acc : Option SpecMatch × ℚ),
      rs.foldl (specStep p) acc = acc ∨
      ∃ r ∈ rs, ∃ c kws, ruleCandidate p r = some (c, kws) ∧
        rs.foldl (specStep p) acc = (some (mkMatch r c kws), c)
  | [], _ => Or.inl rfl
  | r0 :: rest, acc => by
    rcases hc : ruleCandidate p r0 with - | ⟨c, kws⟩
    · have hstep := specStep_skip p r0 acc hc
      rcases specFold_attain p rest (specStep p acc r0) with h | ⟨r, hr, c', kws', hcand, hres⟩
      · left; rw [List.foldl_cons, h, hstep]
      · right
        exact ⟨r, List.mem_cons_of_mem _ hr, c', kws', hcand, by rw [List.foldl_cons, hres]⟩
    · by_cases hlt : acc.2 < c
      · have hstep := specStep_take p r0 acc c kws hc hlt
        rcases specFold_attain p rest (specStep p acc r0) with h | ⟨r, hr, c', kws', hcand, hres⟩
        · right
          exact ⟨r0, List.mem_cons_self r0 rest, c, kws, hc, by rw [List.foldl_cons, h, hstep]⟩
        · right
          exact ⟨r, List.mem_cons_of_mem _ hr, c', kws', hcand, by rw [List.foldl_cons, hres]⟩
      · have hstep := specStep_keep p r0 acc c kws hc hlt
        rcases specFold_attain p rest (specStep p acc r0) with h | ⟨r, hr, c', kws', hcand, hres⟩
        · left; rw [List.foldl_cons, h, hstep]
        · right
          exact ⟨r, List.mem_cons_of_mem _ hr, c', kws', hcand, by rw [List.foldl_cons, hres]⟩

theorem specialized_boost_nonneg : ∀ r ∈ SPECIALIZED_TASKS, 0 ≤ r.boost := by
  intro r hr
  fin_cases hr <;>
    norm_num [planning_rule, architecture_rule, code_review_rule,
      security_review_rule, refactoring_rule, debugging_complex_rule,
      debugging_rule, research_rule, documentation_rule, code_generation_rule,
      complex_analysis_rule, algorithms_rule, misc_coding_rule]

/-- C5: `detect_specialized_task` returns at most one match (its result is an
`Option`); when a match is returned its confidence is at least 0.7, it
dominates the candidate confidence of every specialized rule (computed per
rule as 0.85 plus the optional bonus on a strong-keyword hit,
min(0.8 + 0.05·n, 0.95) on n ≥ 2 generic hits, or 0.7 on exactly one generic
hit with a supporting contextual term — see `ruleCandidate`), and it is the
exact candidate of one of the rules. -/
theorem detect_specialized_task_spec (prompt : String) (m : SpecMatch)
    (h : detect_specialized_task prompt = some m) :
    0.7 ≤ m.confidence
    ∧ (∀ r ∈ SPECIALIZED_TASKS, ∀ (c : ℚ) (kws : List String),
        ruleCandidate (lower prompt) r = some (c, kws) → c ≤ m.confidence)
    ∧ ∃ r ∈ SPECIALIZED_TASKS, ∃ kws,
        ruleCandidate (lower prompt) r = some (m.confidence, kws)
          ∧ m = mkMatch r m.confidence kws := by
  unfold detect_specialized_task at h
  obtain ⟨hconf, hge⟩ := specFold_P (lower prompt) SPECIALIZED_TASKS (none, 0)
    specialized_boost_nonneg (by intro m' hm'; simp at hm') m h
  refine ⟨by rw [hconf]; exact hge, ?_, ?_⟩
  · intro r hr c kws hc
    rw [hconf]
    exact specFold_dominates (lower prompt) SPECIALIZED_TASKS (none, 0) r hr c kws hc
  · rcases specFold_attain (lower prompt) SPECIALIZED_TASKS (none, 0) with hid | hat
    · rw [hid] at h
      simp at h
    · obtain ⟨r, hr, c, kws, hcand, hres⟩ := hat
      rw [hres] at h
      simp only [Option.some.injEq] at h
      have hcval : m.confidence = c := by rw [← h]; rfl
      refine ⟨r, hr, kws, ?_, ?_⟩
      · rw [hcval]; exact hcand
      · rw [hcval, ← h]

/-- Witness for C5: the prompt "plan the rollout" produces the planning rule
match via the strong-keyword branch, with confidence 0.85 + boost ≥ 0.7. -/
theorem detect_specialized_task_spec_witness :
    0.7 ≤ (mkMatch planning_rule (0.85 + planning_rule.boost)
      ["plan the"]).confidence := by
  have hd : detect_specialized_task "plan the rollout"
      = some (mkMatch planning_rule (0.85 + planning_rule.boost) ["plan the"]) := by
    unfold detect_specialized_task SPECIALIZED_TASKS
    simp only [List.foldl_cons, List.foldl_nil]
    rw [specStep_take (lower "plan the rollout") planning_rule
      ((none, 0) : Option SpecMatch × ℚ) _ _ rfl (by norm_num [planning_rule]),
      specStep_skip (lower "plan the rollout") architecture_rule _ rfl,
      specStep_skip (lower "plan the rollout") code_review_rule _ rfl,
      specStep_skip (lower "plan the rollout") security_review_rule _ rfl,
      specStep_skip (lower "plan the rollout") refactoring_rule _ rfl,
      specStep_skip (lower "plan the rollout") debugging_complex_rule _ rfl,
      specStep_skip (lower "plan the rollout") debugging_rule _ rfl,
      specStep_skip (lower "plan the rollout") research_rule _ rfl,
      specStep_skip (lower "plan the rollout") documentation_rule _ rfl,
      specStep_skip (lower "plan the rollout") code_generation_rule _ rfl,
      specStep_skip (lower "plan the rollout") complex_analysis_rule _ rfl,
      specStep_skip (lower "plan the rollout") algorithms_rule _ rfl,
      specStep_skip (lower "plan the rollout") misc_coding_rule _ rfl]
    rfl
  exact (detect_specialized_task_spec "plan the rollout" _ hd).1

/-! ### Capability Registry and Agent Selector (classifier.py 20-107, 1013-1185) -/

/-- A Capability Profile (one entry of `AGENT_CAPABILITIES` in
classifier.py): mode values are `none` for Python `None` tokens. -/
structure AgentProfile where
  strengths : List String
  complexity_preference : String
  description : String
  speed : String
  cost : String
  cli_command : String
  modes : List (String × Option String)
  models : List (String × String)
  reasoning_by_complexity : Option (List (String × String)) := none

/-- `AGENT_CAPABILITIES` (classifier.py lines 20-107), in declaration order. -/
def AGENT_CAPABILITIES : List (String × AgentProfile) :=
  [("codex",
    { strengths := ["misc_coding", "algorithms", "math", "utility_scripts"]
      complexity_preference := "any"
      description := "OpenAI Codex CLI - versatile for misc coding tasks with adjustable reasoning"
      speed := "medium", cost := "medium", cli_command := "codex"
      modes := [("default", none), ("high_reasoning", some "--reasoning high"),
        ("medium_reasoning", some "--reasoning medium")]
      models := [("simple", "gpt-5.2-codex"), ("moderate", "gpt-5.2-codex"),
        ("complex", "gpt-5.2-codex")]
      reasoning_by_complexity := some [("simple", "medium"), ("moderate", "medium"),
        ("complex", "high")] }),
   ("cursor",
    { strengths := ["planning", "architecture", "refactoring", "code_debugging",
        "code_review", "rewrite"]
      complexity_preference := "moderate"
      description := "Cursor AI - best for planning, architecture, debugging, and repo-aware refactoring"
      speed := "medium", cost := "medium", cli_command := "agent"
      modes := [("plan", some "--mode plan"), ("agent", some "--mode agent"),
        ("ask", some "--mode ask")]
      models := [("simple", "gpt-4o"), ("moderate", "claude-sonnet-4.5"),
        ("complex", "claude-opus-4.5")] }),
   ("gemini",
    { strengths := ["code_generation", "research", "documentation", "open_qa",
        "summarization", "brainstorm", "code_explanation", "text_generation"]
      complexity_preference := "any"
      description := "Gemini CLI - primary for code generation, research, documentation, and analysis"
      speed := "fast", cost := "low", cli_command := "gemini"
      modes := [("read", none), ("edit", some "--yolo")]
      models := [("simple", "gemini-3-pro"), ("moderate", "gemini-3-pro"),
        ("complex", "gemini-3-pro")] }),
   ("copilot",
    { strengths := ["complex_analysis", "deep_reasoning", "security_analysis",
        "architectural_review"]
      complexity_preference := "complex"
      description := "GitHub Copilot CLI - Opus specialist for complex reasoning and deep analysis"
      speed := "slow", cost := "high", cli_command := "copilot"
      modes := [("default", none), ("edit", some "--allow-all-paths")]
      models := [("simple", "claude-opus-4.5"), ("moderate", "claude-opus-4.5"),
        ("complex", "claude-opus-4.5")] })]

/-- The registry's provider identifiers, in declaration order. -/
def registryKeys : List String := AGENT_CAPABILITIES.map Prod.fst

/-- String-keyed association-list lookup (Python dict `get`). -/
def lookupStr {α : Type} (l : List (String × α)) (k : String) : Option α :=
  (l.find? (fun x => x.1 == k)).map Prod.snd

/-- Placeholder profile for the total embedding of `AGENT_CAPABILITIES[agent]`
(never reached: every selected agent is a registry key). -/
def defaultProfile : AgentProfile :=
  { strengths := [], complexity_preference := "", description := "", speed := ""
    cost := "", cli_command := "", modes := [], models := [] }

def capsOf (a : String) : AgentProfile :=
  (Classifier.lookupStr AGENT_CAPABILITIES a).getD defaultProfile

/-- `caps["modes"].get(k)` — `None` both for a missing key and a `None` value. -/
def modeGet (caps : AgentProfile) (k : String) : Option String :=
  match lookupStr caps.modes k with
  | some v => v
  | none => none

/-- One ranked alternative of the Routing Decision. -/
structure Alt where
  agent : String
  score : ℚ
  description : String

/-- The Routing Decision returned by `select_agent` (classifier.py): the dict
keys absent on some paths (`specialized_task`, models/modes of the fallback)
are embedded as `Option`. -/
structure Decision where
  selected_agent : String
  confidence : ℚ
  reasoning : String
  recommended_model : Option String
  recommended_mode : Option String
  specialized_task : Option String
  alternative_agents : List Alt
  task_analysis : Classification

/-- The availability-extended exclusion list (classifier.py lines 1028-1034):
with `available_only`, agents whose CLI is not installed are appended.  The
source then deduplicates via `list(set(...))`, which only matters for
membership and is therefore omitted. -/
def extendedExclude (exclude_agents : List String) (available_only : Bool)
    (installed : String → Bool) : List String :=
  if available_only then
    exclude_agents ++ registryKeys.filter (fun a => !installed a)
  else exclude_agents

/-- The specialized short-circuit condition (classifier.py lines 1037-1039):
a specialized match on a nonempty prompt whose agent is not excluded. -/
def specializedRoute (prompt : String) (ext : List String) : Option SpecMatch :=
  match (if prompt ≠ "" then detect_specialized_task prompt else none) with
  | some sp => if !(ext.contains sp.agent) then some sp else none
  | none => none

/-- The additive per-agent score of the generic selection path
(classifier.py lines 1076-1119). -/
def agentScore (cls : Classification) (prefer_speed prefer_cost : Bool)
    (agent : String) (caps : AgentProfile) : ℚ :=
  (if caps.strengths.contains cls.taskType then (0.5 : ℚ) else 0)
    + (if agent == "gemini" && cls.taskType == "code_generation" then (0.3 : ℚ)
       else if agent == "cursor" && ["planning", "architecture", "rewrite",
          "code_debugging"].contains cls.taskType then 0.3
       else if agent == "copilot" && cls.complexity == "complex" then 0.2
       else if agent == "codex" && !(["planning", "architecture",
          "research"].contains cls.taskType) then 0.1
       else 0)
    + (if caps.complexity_preference == "any" then (0.15 : ℚ)
       else if caps.complexity_preference == cls.complexity then 0.25
       else if caps.complexity_preference == "complex"
          && cls.complexity == "moderate" then 0.1
       else 0)
    + (if prefer_speed && caps.speed == "fast" then (0.2 : ℚ) else 0)
    + (if prefer_cost && caps.cost == "low" then (0.2 : ℚ) else 0)

/-- The `agent_scores` dict as an association list in registry declaration
order, restricted to non-excluded agents. -/
def scoresList (cls : Classification) (prefer_speed prefer_cost : Bool)
    (ext : List String) : List (String × ℚ) :=
  (AGENT_CAPABILITIES.filter (fun x => !(ext.contains x.1))).map
    (fun x => (x.1, agentScore cls prefer_speed prefer_cost x.1 x.2))

/-- Stable insertion for descending sort: an element goes before the first
entry with a score it matches or exceeds, so earlier list elements win ties
(the semantics of Python `sorted(..., key=score, reverse=True)`). -/
def insertDesc (x : String × ℚ) : List (String × ℚ) → List (String × ℚ)
  | [] => [x]
  | y :: ys => if y.2 ≤ x.2 then x :: y :: ys else y :: insertDesc x ys

/-- Stable sort by score descending (Python `sorted(items, key=lambda x: x[1],
reverse=True)`, which is stable). -/
def sortDesc : List (String × ℚ) → List (String × ℚ)
  | [] => []
  | x :: xs => insertDesc x (sortDesc xs)

/-- First maximum of a scored list: the earliest entry attaining the maximal
score (the head of the stable descending sort). -/
def bestOf : List (String × ℚ) → Option (String × ℚ)
  | [] => none
  | x :: xs =>
    match bestOf xs with
    | none => some x
    | some m => some (if m.2 ≤ x.2 then x else m)

/-- The single-quote character of the Python f-string rationale shown as
`Task type '<t>' with <c> complexity.`. -/
def sq : String := String.singleton (Char.ofNat 39)

/-- The fallback Routing Decision (classifier.py lines 1121-1130), returned
when every agent was excluded. -/
def fallbackDecision (cls : Classification) : Decision :=
  { selected_agent := "gemini", confidence := 0.5
    reasoning := "Default fallback - all agents excluded or unavailable"
    recommended_model := none, recommended_mode := none
    specialized_task := none, alternative_agents := [], task_analysis := cls }

/-- The generic-path Routing Decision built from the sorted score list
(classifier.py lines 1132-1185). -/
def genericDecision (cls : Classification) (best_agent : String)
    (best_score : ℚ) (rest : List (String × ℚ)) : Decision :=
  let bs := min 1 (max 0 best_score)
  let caps := capsOf best_agent
  let reasoning :=
    ("Task type " ++ sq ++ cls.taskType ++ sq ++ " with " ++ cls.complexity
        ++ " complexity.")
      ++ (if caps.strengths.contains cls.taskType then
            " " ++ best_agent.capitalize ++ " excels at " ++ cls.taskType ++ "."
          else "")
  let alternatives := (rest.take 2).map
    (fun y => Alt.mk y.1 (round2 y.2) (capsOf y.1).description)
  let recommended_mode :=
    if best_agent == "cursor" then
      (if ["planning", "architecture"].contains cls.taskType then
        modeGet caps "plan"
      else if ["code_review", "code_explanation"].contains cls.taskType then
        modeGet caps "ask"
      else modeGet caps "agent")
    else if best_agent == "gemini" then
      (if ["code_generation", "documentation", "rewrite"].contains cls.taskType then
        modeGet caps "edit"
      else none)
    else if best_agent == "codex" then
      (match caps.reasoning_by_complexity with
       | some rbc =>
         if (lookupStr rbc cls.complexity).getD "medium" == "high" then
           modeGet caps "high_reasoning"
         else modeGet caps "medium_reasoning"
       | none => none)
    else if best_agent == "copilot" then
      (if ["code_generation", "refactoring", "rewrite"].contains cls.taskType then
        modeGet caps "edit"
      else none)
    else none
  { selected_agent := best_agent, confidence := round2 bs, reasoning := reasoning
    recommended_model := lookupStr caps.models cls.complexity
    recommended_mode := recommended_mode, specialized_task := none
    alternative_agents := alternatives, task_analysis := cls }

/-- The specialized-path Routing Decision (classifier.py lines 1039-1068),
applying the cost/speed model-tier downgrades and the codex
reasoning-escalation override. -/
def specializedDecision (cls : Classification) (prefer_speed prefer_cost : Bool)
    (sp : SpecMatch) : Decision :=
  let agent := sp.agent
  let caps := capsOf agent
  let mt1 := if prefer_cost && sp.model_tier == "complex" then "moderate"
    else sp.model_tier
  let mt2 := if prefer_speed && mt1 ≠ "simple" then
      (if mt1 == "complex" then "moderate" else "simple")
    else mt1
  let recommended_model :=
    some ((lookupStr caps.models mt2).getD
      ((lookupStr caps.models "moderate").getD ""))
  let recommended_mode :=
    if agent == "codex" && caps.reasoning_by_complexity.isSome then
      (let rbc := caps.reasoning_by_complexity.getD []
       if (lookupStr rbc mt2).getD "medium" == "high" then
         modeGet caps "high_reasoning"
       else modeGet caps "medium_reasoning")
    else modeGet caps sp.mode
  { selected_agent := agent, confidence := sp.confidence
    reasoning := sp.reasoning, recommended_model := recommended_model
    recommended_mode := recommended_mode
    specialized_task := some sp.specialized_task
    alternative_agents := [], task_analysis := cls }

/-- `select_agent` (classifier.py lines 1013-1185). -/
def select_agent (cls : Classification) (prefer_speed prefer_cost : Bool)
    (exclude_agents : List String) (available_only : Bool) (prompt : String)
    (installed : String → Bool) : Decision :=
  let ext := extendedExclude exclude_agents available_only installed
  match specializedRoute prompt ext with
  | some sp => specializedDecision cls prefer_speed prefer_cost sp
  | none =>
    let scores := scoresList cls prefer_speed prefer_cost ext
    if scores.isEmpty then fallbackDecision cls
    else
      let sorted := sortDesc scores
      let top := sorted.headD ("", 0)
      genericDecision cls top.1 top.2 (sorted.drop 1)

/-! ### Properties of the stable descending sort and of the score list -/

theorem sortDesc_eq_nil_iff (l : List (String × ℚ)) : sortDesc l = [] ↔ l = [] := by
  cases l with
  | nil => simp [sortDesc]
  | cons x xs =>
    simp only [sortDesc]
    constructor
    · intro h
      exfalso
      cases hs : sortDesc xs with
      | nil => rw [hs] at h; simp [insertDesc] at h
      | cons y t =>
        rw [hs] at h
        simp only [insertDesc] at h
        split_ifs at h <;> simp at h
    · intro h; exact absurd h (List.cons_ne_nil x xs)

theorem bestOf_eq_none_iff (l : List (String × ℚ)) : bestOf l = none ↔ l = [] := by
  cases l with
  | nil => simp [bestOf]
  | cons x xs =>
    simp only [bestOf]
    constructor
    · intro h
      cases hb : bestOf xs with
      | none => rw [hb] at h; simp at h
      | some m => rw [hb] at h; simp at h
    · intro h; exact absurd h (List.cons_ne_nil x xs)

/-- The head of the stable descending sort is the first maximum. -/
theorem headD_sortDesc (l : List (String × ℚ)) (d : String × ℚ) :
    (sortDesc l).headD d = (bestOf l).getD d := by
  induction l with
  | nil => rfl
  | cons x xs ih =>
    show (insertDesc x (sortDesc xs)).headD d = _
    cases hs : sortDesc xs with
    | nil =>
      have hxs : xs = [] := (sortDesc_eq_nil_iff xs).mp hs
      subst hxs
      simp [insertDesc, bestOf]
    | cons y t =>
      have hxs : xs ≠ [] := by
        intro h0; rw [h0] at hs; simp [sortDesc] at hs
      cases hb : bestOf xs with
      | none => exact absurd ((bestOf_eq_none_iff xs).mp hb) hxs
      | some m =>
        have hy : y = m := by
          have h1 := ih
          rw [hs, hb] at h1
          simpa using h1
        subst hy
        simp only [insertDesc, bestOf, hb]
        split_ifs with h1
        · simp
        · simp

theorem bestOf_mem :
    ∀ (l : List (String × ℚ)) (m : String × ℚ), bestOf l = some m → m ∈ l
  | [], m, h => by simp [bestOf] at h
  | x :: xs, m, h => by
    simp only [bestOf] at h
    cases hb : bestOf xs with
    | none =>
      rw [hb] at h
      simp only [Option.some.injEq] at h
      exact h ▸ List.mem_cons_self x xs
    | some m' =>
      rw [hb] at h
      simp only [Option.some.injEq] at h
      rw [← h]
      split_ifs
      · exact List.mem_cons_self x xs
      · exact List.mem_cons_of_mem x (bestOf_mem xs m' hb)

theorem bestOf_ge :
    ∀ (l : List (String × ℚ)) (m : String × ℚ), bestOf l = some m →
      ∀ y ∈ l, y.2 ≤ m.2
  | [], m, h => by simp
  | x :: xs, m, h => by
    intro y hy
    simp only [bestOf] at h
    cases hb : bestOf xs with
    | none =>
      have hxs : xs = [] := (bestOf_eq_none_iff xs).mp hb
      subst hxs
      rw [hb] at h
      simp only [Option.some.injEq] at h
      rcases List.mem_cons.mp hy with rfl | hy'
      · rw [← h]
      · simp at hy'
    | some m' =>
      rw [hb] at h
      simp only [Option.some.injEq] at h
      rcases List.mem_cons.mp hy with rfl | hy'
      · rw [← h]
        split_ifs
        · exact le_refl _
        · next hle => exact le_of_lt (lt_of_not_le hle)
      · have h1 := bestOf_ge xs m' hb y hy'
        rw [← h]
        split_ifs with h2
        · exact le_trans h1 h2
        · exact h1

/-- The chosen maximum decomposes the list with strictly smaller scores
strictly before it (first-maximum / stability). -/
theorem bestOf_first :
    ∀ (l : List (String × ℚ)) (m : String × ℚ), bestOf l = some m →
      ∃ l₁ l₂, l = l₁ ++ m :: l₂ ∧ ∀ y ∈ l₁, y.2 < m.2
  | [], m, h => by simp [bestOf] at h
  | x :: xs, m, h => by
    simp only [bestOf] at h
    cases hb : bestOf xs with
    | none =>
      have hxs : xs = [] := (bestOf_eq_none_iff xs).mp hb
      subst hxs
      rw [hb] at h
      simp only [Option.some.injEq] at h
      exact ⟨[], [], by simp [h], by simp⟩
    | some m' =>
      rw [hb] at h
      simp only [Option.some.injEq] at h
      by_cases hle : m'.2 ≤ x.2
      · rw [if_pos hle] at h
        exact ⟨[], xs, by simp [h], by simp⟩
      · rw [if_neg hle] at h
        obtain ⟨l₁, l₂, hdec, hlt⟩ := bestOf_first xs m' hb
        refine ⟨x :: l₁, l₂, by rw [hdec, ← h, List.cons_append], ?_⟩
        intro y hy
        rcases List.mem_cons.mp hy with rfl | hy'
        · rw [← h]; exact lt_of_not_le hle
        · rw [← h]; exact hlt y hy'

theorem mem_scoresList (cls : Classification) (pS pC : Bool) (ext : List String)
    (y : String × ℚ) (hy : y ∈ scoresList cls pS pC ext) :
    y.1 ∈ registryKeys ∧ ext.contains y.1 = false := by
  obtain ⟨x, hx, hxy⟩ := List.mem_map.mp hy
  obtain ⟨hxA, hxq⟩ := List.mem_filter.mp hx
  constructor
  · rw [← hxy]
    exact List.mem_map.mpr ⟨x, hxA, rfl⟩
  · rw [← hxy]
    simpa using hxq

theorem scoresList_ne_nil (cls : Classification) (pS pC : Bool) (ext : List String)
    (h : ∃ a ∈ registryKeys, ext.contains a = false) :
    scoresList cls pS pC ext ≠ [] := by
  obtain ⟨a, ha, hna⟩ := h
  obtain ⟨x, hx, hxa⟩ := List.mem_map.mp ha
  intro h0
  have hfil : AGENT_CAPABILITIES.filter (fun x => !(ext.contains x.1)) = [] :=
    List.map_eq_nil.mp h0
  have := List.filter_eq_nil.mp hfil x hx
  rw [hxa] at this
  refine this ?_
  rw [hna]
  rfl

theorem scoresList_eq_nil (cls : Classification) (pS pC : Bool) (ext : List String)
    (h : ∀ a ∈ registryKeys, ext.contains a = true) :
    scoresList cls pS pC ext = [] := by
  unfold scoresList
  rw [List.filter_eq_nil.mpr, List.map_nil]
  intro x hx
  have := h x.1 (List.mem_map.mpr ⟨x, hx, rfl⟩)
  simp only [Bool.not_eq_true]
  rw [this]
  rfl

/-- Unpacking the specialized short-circuit: a routed match comes from the
detector and its agent is not excluded. -/
theorem specializedRoute_spec (prompt : String) (ext : List String)
    (sp : SpecMatch) (h : specializedRoute prompt ext = some sp) :
    detect_specialized_task prompt = some sp ∧ ext.contains sp.agent = false := by
  unfold specializedRoute at h
  by_cases hp : prompt = ""
  · rw [if_neg (by simp [hp])] at h
    simp at h
  · rw [if_pos hp] at h
    cases hd : detect_specialized_task prompt with
    | none => rw [hd] at h; simp at h
    | some sp' =>
      rw [hd] at h
      simp only at h
      split_ifs at h with hc
      simp only [Option.some.injEq] at h
      subst h
      exact ⟨rfl, by simpa using hc⟩

/-- The agent of every detector match is a key of the Capability Registry. -/
theorem detect_agent_mem (prompt : String) (m : SpecMatch)
    (h : detect_specialized_task prompt = some m) : m.agent ∈ registryKeys := by
  unfold detect_specialized_task at h
  rcases specFold_attain (lower prompt) SPECIALIZED_TASKS (none, 0) with hid | hat
  · rw [hid] at h; simp at h
  · obtain ⟨r, hr, c, kws, -, hres⟩ := hat
    rw [hres] at h
    simp only [Option.some.injEq] at h
    have hag : m.agent = r.agent := by rw [← h]; rfl
    rw [hag]
    have hall : ∀ x ∈ SPECIALIZED_TASKS, x.agent ∈ registryKeys := by decide
    exact hall r hr

/-- When the specialized route is not taken and some agent survives the
exclusions, `select_agent` is the generic decision built from the first
maximum of the score list. -/
theorem select_agent_generic_eq (cls : Classification) (pS pC : Bool)
    (ex : List String) (ao : Bool) (prompt : String) (inst : String → Bool)
    (hsp : specializedRoute prompt (extendedExclude ex ao inst) = none)
    (hne : scoresList cls pS pC (extendedExclude ex ao inst) ≠ []) :
    select_agent cls pS pC ex ao prompt inst
      = genericDecision cls
          ((bestOf (scoresList cls pS pC (extendedExclude ex ao inst))).getD ("", 0)).1
          ((bestOf (scoresList cls pS pC (extendedExclude ex ao inst))).getD ("", 0)).2
          ((sortDesc (scoresList cls pS pC (extendedExclude ex ao inst))).drop 1) := by
  unfold select_agent
  simp only [hsp]
  have hie : (scoresList cls pS pC (extendedExclude ex ao inst)).isEmpty = false := by
    cases hs : scoresList cls pS pC (extendedExclude ex ao inst) with
    | nil => exact absurd hs hne
    | cons y ys => rfl
  rw [if_neg (by simp [hie])]
  rw [headD_sortDesc]

/-- The registry keys are listed in strictly increasing declaration order. -/
theorem registry_keys_pairwise :
    registryKeys.Pairwise
      (fun a b => registryKeys.indexOf a < registryKeys.indexOf b) := by
  decide

/-- The score list inherits the registry declaration order. -/
theorem scoresList_pairwise (cls : Classification) (pS pC : Bool)
    (ext : List String) :
    (scoresList cls pS pC ext).Pairwise
      (fun u v => registryKeys.indexOf u.1 < registryKeys.indexOf v.1) := by
  have h1 : AGENT_CAPABILITIES.Pairwise
      (fun x y => registryKeys.indexOf x.1 < registryKeys.indexOf y.1) := by
    decide
  have h2 := List.Pairwise.sublist
    (@List.filter_sublist (String × AgentProfile)
      (fun x => !(ext.contains x.1)) AGENT_CAPABILITIES) h1
  unfold scoresList
  refine List.pairwise_map.mpr ?_
  exact List.Pairwise.imp (fun hab => hab) h2

/-- Classification sample used for concrete instantiations: an ordinary
moderate code-generation request. -/
def cls0 : Classification :=
  { taskType := "code_generation", taskTypeConfidence := 0.5
    complexity := "moderate", complexityScore := 0.5
    taskSignals := [], complexitySignals := [] }

/-- Classification sample on which every surviving provider scores zero
once codex and gemini are excluded. -/
def cls1 : Classification :=
  { taskType := "open_qa", taskTypeConfidence := 0.6
    complexity := "simple", complexityScore := 0.3
    taskSignals := [], complexitySignals := [] }

/-- C1 counterexample: excluding every provider under availability filtering
makes `select_agent` return the fallback "gemini", which is itself a member
of the (availability-extended) exclusion set — refuting the claim as stated. -/
theorem select_agent_exclusion_counterexample :
    (select_agent cls0 false false ["codex", "cursor", "gemini", "copilot"]
        true "" (fun _ => true)).selected_agent = "gemini"
    ∧ (extendedExclude ["codex", "cursor", "gemini", "copilot"] true
        (fun _ => true)).contains
        (select_agent cls0 false false ["codex", "cursor", "gemini", "copilot"]
          true "" (fun _ => true)).selected_agent = true := by
  constructor
  · decide
  · decide

/-- C1 amended: whenever availability filtering is requested and at least one
registry provider is outside the (availability-extended) exclusion set, the
selected provider is not in that set; and it is always a registry key.  (When
every provider is excluded the fixed fallback "gemini" is returned, which may
itself be excluded — see the counterexample.) -/
theorem select_agent_respects_exclusions (cls : Classification) (pS pC : Bool)
    (ex : List String) (prompt : String) (inst : String → Bool)
    (h : ∃ a ∈ registryKeys, (extendedExclude ex true inst).contains a = false) :
    (extendedExclude ex true inst).contains
        (select_agent cls pS pC ex true prompt inst).selected_agent = false
    ∧ (select_agent cls pS pC ex true prompt inst).selected_agent ∈ registryKeys := by
  cases hsp : specializedRoute prompt (extendedExclude ex true inst) with
  | some sp =>
    have hsa : (select_agent cls pS pC ex true prompt inst).selected_agent
        = sp.agent := by
      unfold select_agent
      simp only [hsp]
      rfl
    obtain ⟨hdet, hnex⟩ := specializedRoute_spec prompt _ sp hsp
    rw [hsa]
    exact ⟨hnex, detect_agent_mem prompt sp hdet⟩
  | none =>
    have hne := scoresList_ne_nil cls pS pC _ h
    cases hb : bestOf (scoresList cls pS pC (extendedExclude ex true inst)) with
    | none => exact absurd ((bestOf_eq_none_iff _).mp hb) hne
    | some m =>
      have hsa : (select_agent cls pS pC ex true prompt inst).selected_agent
          = m.1 := by
        rw [select_agent_generic_eq cls pS pC ex true prompt inst hsp hne, hb]
        rfl
      have hmem := bestOf_mem _ m hb
      obtain ⟨hkey, hnex⟩ := mem_scoresList cls pS pC _ m hmem
      rw [hsa]
      exact ⟨hnex, hkey⟩

/-- Witness for the amended C1 at a concrete input (nothing excluded, all
providers installed). -/
theorem select_agent_respects_exclusions_witness :
    (extendedExclude [] true (fun _ => true)).contains
        (select_agent cls0 false false [] true "" (fun _ => true)).selected_agent
        = false
    ∧ (select_agent cls0 false false [] true "" (fun _ => true)).selected_agent
        ∈ registryKeys :=
  select_agent_respects_exclusions cls0 false false [] "" (fun _ => true) (by decide)

/-- C2 counterexample: with classification `cls1` and codex and gemini
excluded, both remaining providers score exactly zero, yet `select_agent`
returns "cursor" with confidence 0 — not the fixed default "gemini" with
confidence 0.5 that the claim asserts for the all-scores-nonpositive case. -/
theorem select_agent_zero_scores_counterexample :
    agentScore cls1 false false "cursor" (capsOf "cursor") = 0
    ∧ agentScore cls1 false false "copilot" (capsOf "copilot") = 0
    ∧ (scoresList cls1 false false
        (extendedExclude ["codex", "gemini"] false (fun _ => true))).map Prod.fst
        = ["cursor", "copilot"]
    ∧ (select_agent cls1 false false ["codex", "gemini"] false ""
        (fun _ => true)).selected_agent = "cursor"
    ∧ (select_agent cls1 false false ["codex", "gemini"] false ""
        (fun _ => true)).confidence = 0 := by
  have hcur : agentScore cls1 false false "cursor" (capsOf "cursor") = 0 := by
    show (0 : ℚ) + 0 + 0 + 0 + 0 = 0
    norm_num
  have hcop : agentScore cls1 false false "copilot" (capsOf "copilot") = 0 := by
    show (0 : ℚ) + 0 + 0 + 0 + 0 = 0
    norm_num
  have hsl : scoresList cls1 false false
      (extendedExclude ["codex", "gemini"] false (fun _ => true))
      = [("cursor", agentScore cls1 false false "cursor" (capsOf "cursor")),
         ("copilot", agentScore cls1 false false "copilot" (capsOf "copilot"))] := rfl
  have hb : bestOf (scoresList cls1 false false
      (extendedExclude ["codex", "gemini"] false (fun _ => true)))
      = some ("cursor", agentScore cls1 false false "cursor" (capsOf "cursor")) := by
    rw [hsl]
    simp only [bestOf]
    rw [if_pos (le_of_eq (hcop.trans hcur.symm))]
  have hsp0 : specializedRoute ""
      (extendedExclude ["codex", "gemini"] false (fun _ => true)) = none := rfl
  have hne : scoresList cls1 false false
      (extendedExclude ["codex", "gemini"] false (fun _ => true)) ≠ [] := by
    rw [hsl]; simp
  have heq := select_agent_generic_eq cls1 false false ["codex", "gemini"] false ""
    (fun _ => true) hsp0 hne
  refine ⟨hcur, hcop, by rw [hsl]; rfl, ?_, ?_⟩
  · rw [heq, hb]
    rfl
  · rw [heq, hb]
    show round2 (min 1 (max 0
      (agentScore cls1 false false "cursor" (capsOf "cursor")))) = 0
    rw [hcur, max_self, min_eq_right (by norm_num : (0 : ℚ) ≤ 1),
      round2_centi ⟨0, by norm_num⟩]

/-- C2 amended: `select_agent` is a total function (this embedding never
raises); whenever every registry provider is in the (availability-extended)
exclusion set it returns the fixed default decision — provider "gemini",
confidence exactly 0.5, with the explanatory rationale.  (When providers
remain but all score zero, the top-ranked remaining provider is returned
with confidence 0 instead — see the counterexample.) -/
theorem select_agent_all_excluded (cls : Classification) (pS pC : Bool)
    (ex : List String) (ao : Bool) (prompt : String) (inst : String → Bool)
    (h : ∀ a ∈ registryKeys, (extendedExclude ex ao inst).contains a = true) :
    select_agent cls pS pC ex ao prompt inst = fallbackDecision cls := by
  cases hsp : specializedRoute prompt (extendedExclude ex ao inst) with
  | some sp =>
    obtain ⟨hdet, hnex⟩ := specializedRoute_spec prompt _ sp hsp
    have hc := h sp.agent (detect_agent_mem prompt sp hdet)
    rw [hc] at hnex
    exact absurd hnex (by simp)
  | none =>
    unfold select_agent
    simp only [hsp]
    rw [scoresList_eq_nil cls pS pC _ h]
    rfl

/-- Witness for the amended C2: excluding all four providers returns the
fallback decision. -/
theorem select_agent_all_excluded_witness :
    select_agent cls0 false false ["codex", "cursor", "gemini", "copilot"]
        false "x" (fun _ => true) = fallbackDecision cls0 :=
  select_agent_all_excluded cls0 false false
    ["codex", "cursor", "gemini", "copilot"] false "x" (fun _ => true) (by decide)

/-- C8: on the generic (non-specialized) path, the selected provider is the
first maximum of the score list: its score is at least every candidate's
score, and any other candidate with an equal score appears strictly later in
registry declaration order. -/
theorem select_agent_ranking (cls : Classification) (pS pC : Bool)
    (ex : List String) (ao : Bool) (prompt : String) (inst : String → Bool)
    (a : String) (s : ℚ)
    (hsp : specializedRoute prompt (extendedExclude ex ao inst) = none)
    (hb : bestOf (scoresList cls pS pC (extendedExclude ex ao inst)) = some (a, s)) :
    (select_agent cls pS pC ex ao prompt inst).selected_agent = a
    ∧ ∀ y ∈ scoresList cls pS pC (extendedExclude ex ao inst),
        y.2 ≤ s ∧ (y.2 = s → y.1 ≠ a →
          registryKeys.indexOf a < registryKeys.indexOf y.1) := by
  have hne : scoresList cls pS pC (extendedExclude ex ao inst) ≠ [] := by
    intro h0
    rw [h0] at hb
    simp [bestOf] at hb
  constructor
  · rw [select_agent_generic_eq cls pS pC ex ao prompt inst hsp hne, hb]
    rfl
  · intro y hy
    refine ⟨bestOf_ge _ _ hb y hy, ?_⟩
    intro hys hyne
    obtain ⟨l₁, l₂, hdec, hlt⟩ := bestOf_first _ _ hb
    have hpw := scoresList_pairwise cls pS pC (extendedExclude ex ao inst)
    rw [hdec] at hpw
    rw [hdec] at hy
    rcases List.mem_append.mp hy with h1 | h2
    · exact absurd hys (ne_of_lt (hlt y h1))
    · rcases List.mem_cons.mp h2 with h3 | h3
      · exact absurd (congrArg Prod.fst h3) hyne
      · obtain ⟨-, hp2, -⟩ := List.pairwise_append.mp hpw
        exact (List.pairwise_cons.mp hp2).1 y h3

/-- Witness for C8: with nothing excluded and classification `cls0`, the
first maximum of the score list is gemini (score 0.95) and it is selected. -/
theorem select_agent_ranking_witness :
    (select_agent cls0 false false [] false "" (fun _ => true)).selected_agent
      = "gemini" := by
  have e1 : scoresList cls0 false false (extendedExclude [] false (fun _ => true))
      = [("codex", agentScore cls0 false false "codex" (capsOf "codex")),
         ("cursor", agentScore cls0 false false "cursor" (capsOf "cursor")),
         ("gemini", agentScore cls0 false false "gemini" (capsOf "gemini")),
         ("copilot", agentScore cls0 false false "copilot" (capsOf "copilot"))] := rfl
  have hcodex : agentScore cls0 false false "codex" (capsOf "codex") = 0.25 := by
    show (0 : ℚ) + 0.1 + 0.15 + 0 + 0 = 0.25
    norm_num
  have hcursor : agentScore cls0 false false "cursor" (capsOf "cursor") = 0.25 := by
    show (0 : ℚ) + 0 + 0.25 + 0 + 0 = 0.25
    norm_num
  have hgem : agentScore cls0 false false "gemini" (capsOf "gemini") = 0.95 := by
    show (0.5 : ℚ) + 0.3 + 0.15 + 0 + 0 = 0.95
    norm_num
  have hcop : agentScore cls0 false false "copilot" (capsOf "copilot") = 0.1 := by
    show (0 : ℚ) + 0 + 0.1 + 0 + 0 = 0.1
    norm_num
  have e2 : scoresList cls0 false false (extendedExclude [] false (fun _ => true))
      = [("codex", 0.25), ("cursor", 0.25), ("gemini", 0.95), ("copilot", 0.1)] := by
    rw [e1, hcodex, hcursor, hgem, hcop]
  have hb : bestOf (scoresList cls0 false false
      (extendedExclude [] false (fun _ => true)))
      = some ("gemini", (0.95 : ℚ)) := by
    rw [e2]
    simp only [bestOf]
    norm_num
  exact (select_agent_ranking cls0 false false [] false "" (fun _ => true)
    "gemini" 0.95 rfl hb).1

end Classifier

/-! ### Server embedding (`router.py`)

`router.py` carries its own, simpler capability table and selector, and its
own `_rule_based_classify` — a duplicate of the classifier.py cascade without
the research rule and without the research-scope complexity signal; the
keyword tables are identical and are shared with the `Classifier` namespace.
`classify_prompt` in router.py consults the NVIDIA model only when the
`USE_NVIDIA_MODEL` environment variable is set; the default configuration
embedded here always takes the rule-based fallback. -/

namespace Router

/-- A capability profile of router.py's `AGENT_CAPABILITIES` (lines 206-235). -/
structure RProfile where
  strengths : List String
  complexity_preference : String
  description : String
  speed : String
  cost : String

/-- router.py `AGENT_CAPABILITIES` (lines 206-235), in declaration order. -/
def AGENT_CAPABILITIES : List (String × RProfile) :=
  [("codex",
    { strengths := ["code_generation", "code_debugging", "math"]
      complexity_preference := "complex"
      description := "OpenAI Codex CLI - best for complex code generation with high reasoning"
      speed := "slow", cost := "high" }),
   ("cursor",
    { strengths := ["code_generation", "code_explanation", "code_review", "rewrite"]
      complexity_preference := "moderate"
      description := "Cursor AI - best for repo-aware edits and refactoring"
      speed := "medium", cost := "medium" }),
   ("gemini",
    { strengths := ["open_qa", "summarization", "brainstorm", "extraction",
        "code_explanation", "text_generation"]
      complexity_preference := "any"
      description := "Gemini CLI - best for analysis, explanation, and general reasoning"
      speed := "fast", cost := "low" }),
   ("copilot",
    { strengths := ["code_generation", "code_debugging", "closed_qa"]
      complexity_preference := "simple"
      description := "GitHub Copilot CLI - fast for straightforward code tasks"
      speed := "fast", cost := "low" })]

def routerKeys : List String := AGENT_CAPABILITIES.map Prod.fst

def defaultRProfile : RProfile :=
  { strengths := [], complexity_preference := "", description := "", speed := ""
    cost := "" }

/-- Task-type cascade of `_rule_based_classify` (router.py lines 320-423):
identical to classifier.py's except that there is no research rule. -/
def taskTypeOf (p : List Char) : String × ℚ × List String :=
  if Classifier.reviewTrig p then
    ("code_review", min (0.7 + (Classifier.review_matches p : ℚ) * 0.05) 0.95,
     ["review_keywords:" ++ toString (Classifier.review_matches p)])
  else if Classifier.debugTrig p then
    ("code_debugging", min (0.7 + (Classifier.debug_matches p : ℚ) * 0.05) 0.95,
     ["debug_keywords:" ++ toString (Classifier.debug_matches p)])
  else if Classifier.explainTrig p then
    ("code_explanation", min (0.7 + (Classifier.explain_matches p : ℚ) * 0.05) 0.95,
     ["explain_keywords:" ++ toString (Classifier.explain_matches p)])
  else if Classifier.refactorTrig p then
    ("rewrite", min (0.7 + (Classifier.refactor_matches p : ℚ) * 0.05) 0.95,
     ["refactor_keywords:" ++ toString (Classifier.refactor_matches p)])
  else if Classifier.genBothTrig p then
    ("code_generation",
     min (0.7 + (Classifier.gen_matches p : ℚ) * 0.03
        + (Classifier.context_matches p : ℚ) * 0.03) 0.95,
     ["gen_keywords:" ++ toString (Classifier.gen_matches p) ++ ",context:"
        ++ toString (Classifier.context_matches p)])
  else if Classifier.genMultiTrig p then
    ("code_generation", 0.7, ["gen_keywords:" ++ toString (Classifier.gen_matches p)])
  else if Classifier.summaryTrigP p then
    ("summarization", 0.8, ["summary_keywords"])
  else if Classifier.mathTrigP p then
    ("math", 0.75, ["math_keywords"])
  else if Classifier.qaTrigP p then
    ("open_qa", 0.6, ["question_pattern"])
  else
    ("code_generation", 0.5, ["default"])

/-- Complexity sum of `_rule_based_classify` (router.py lines 429-495):
signals 1-5 of classifier.py, with no research-scope signal. -/
def complexitySum (p : List Char) : ℚ :=
  Classifier.lengthScore (splitWs p).length
    + (if Classifier.high_matches p > 0 then
        0.15 * (Classifier.high_matches p : ℚ) else 0)
    + (if Classifier.low_matches p > 0 then
        -(0.1 * (Classifier.low_matches p : ℚ)) else 0)
    + (if Classifier.multi_req p > 3 then 0.25
       else if Classifier.multi_req p > 1 then 0.15 else 0)
    + (if Classifier.depth_matches p > 2 then 0.2
       else if Classifier.depth_matches p > 0 then 0.1 else 0)
    + (if Classifier.multi_file_hit p then 0.15 else 0)

/-- Complexity-signal tags of `_rule_based_classify`. -/
def complexitySignals (p : List Char) : List String :=
  (if (splitWs p).length > 150 then ["very_long"]
   else if (splitWs p).length > 75 then ["long"]
   else if (splitWs p).length > 30 then ["medium"] else ["short"])
    ++ (if Classifier.high_matches p > 0 then
          ["high_kw:" ++ toString (Classifier.high_matches p)] else [])
    ++ (if Classifier.low_matches p > 0 then
          ["low_kw:" ++ toString (Classifier.low_matches p)] else [])
    ++ (if Classifier.multi_req p > 1 then
          ["multi_req:" ++ toString (Classifier.multi_req p)] else [])
    ++ (if Classifier.depth_matches p > 0 then
          ["tech_depth:" ++ toString (Classifier.depth_matches p)] else [])
    ++ (if Classifier.multi_file_hit p then ["multi_file"] else [])

/-- `_rule_based_classify` (router.py lines 305-517). -/
def rule_based_classify (prompt : String) : Classifier.Classification :=
  let p := lower prompt
  let t := taskTypeOf p
  let raw := max 0.1 (min 0.95 (complexitySum p + 0.3))
  { taskType := t.1
    taskTypeConfidence := round2 t.2.1
    complexity := Classifier.tierOf raw
    complexityScore := round2 raw
    taskSignals := t.2.2
    complexitySignals := complexitySignals p }

/-- router.py `classify_prompt` (lines 556-654) under the default
configuration: `USE_NVIDIA_MODEL` unset, so `get_model` returns the fallback
and the rule-based path is always taken. -/
def classify_prompt (prompt : String) : Classifier.Classification :=
  rule_based_classify prompt

/-- Per-agent score of router.py's `select_agent` (lines 678-712). -/
def agentScore (cls : Classifier.Classification) (prefer_speed prefer_cost : Bool)
    (caps : RProfile) : ℚ :=
  (if caps.strengths.contains cls.taskType then (0.5 : ℚ) else 0)
    + (if caps.complexity_preference == "any" then (0.2 : ℚ)
       else if caps.complexity_preference == cls.complexity then 0.3
       else if caps.complexity_preference == "complex"
          && cls.complexity == "moderate" then 0.15
       else if caps.complexity_preference == "moderate"
          && (cls.complexity == "simple" || cls.complexity == "complex") then 0.1
       else 0)
    + (if prefer_speed then
        (if caps.speed == "fast" then (0.2 : ℚ)
         else if caps.speed == "medium" then 0.1 else 0)
       else 0)
    + (if prefer_cost then
        (if caps.cost == "low" then (0.2 : ℚ)
         else if caps.cost == "medium" then 0.1 else 0)
       else 0)

/-- The tuple returned by router.py's `select_agent`
(selected agent, confidence, reasoning, alternatives). -/
structure SelectResult where
  selected_agent : String
  confidence : ℚ
  reasoning : String
  alternatives : List Classifier.Alt

/-- router.py `select_agent` (lines 661-744).  Unlike classifier.py's, it has
no availability filtering, no specialized path, and returns the raw top score
as confidence. -/
def select_agent (cls : Classifier.Classification) (prefer_speed prefer_cost : Bool)
    (exclude_agents : List String) : SelectResult :=
  let scores := (AGENT_CAPABILITIES.filter
      (fun x => !(exclude_agents.contains x.1))).map
    (fun x => (x.1, agentScore cls prefer_speed prefer_cost x.2))
  if scores.isEmpty then
    ⟨"gemini", 0.5, "Default fallback - all agents excluded", []⟩
  else
    let sorted := Classifier.sortDesc scores
    let top := sorted.headD ("", 0)
    let caps := (Classifier.lookupStr AGENT_CAPABILITIES top.1).getD defaultRProfile
    let parts :=
      ["Task type " ++ Classifier.sq ++ cls.taskType ++ Classifier.sq
          ++ " with " ++ cls.complexity ++ " complexity."]
        ++ (if caps.strengths.contains cls.taskType then
              [top.1.capitalize ++ " excels at " ++ cls.taskType ++ "."] else [])
        ++ (if prefer_speed then
              ["Speed preferred; " ++ top.1 ++ " is " ++ caps.speed ++ "."] else [])
        ++ (if prefer_cost then
              ["Cost preferred; " ++ top.1 ++ " cost is " ++ caps.cost ++ "."]
            else [])
    let alternatives := ((sorted.drop 1).take 2).map
      (fun y => Classifier.Alt.mk y.1 y.2
        ((Classifier.lookupStr AGENT_CAPABILITIES y.1).getD defaultRProfile).description)
    ⟨top.1, top.2, String.intercalate " " parts, alternatives⟩

/-- `get_recommended_flags` (router.py lines 747-787). -/
def get_recommended_flags (agent : String) (cls : Classifier.Classification) :
    List (String × String) :=
  if agent == "codex" then
    [("sandbox", if ["code_generation", "code_debugging"].contains cls.taskType
        then "workspace-write" else "read-only"),
     ("reasoning", if cls.complexity == "complex" then "high"
        else if cls.complexity == "simple" then "low" else "medium")]
  else if agent == "cursor" then
    [("mode",
      if ["code_generation", "code_debugging", "rewrite"].contains cls.taskType
        then "agent"
      else if ["code_explanation", "code_review"].contains cls.taskType then "ask"
      else "agent")]
  else if agent == "gemini" then
    [("approval",
      if ["code_generation", "code_debugging", "rewrite"].contains cls.taskType
        then "--yolo" else "(none - read-only)"),
     ("model", if cls.complexity == "complex" then "gemini-2.5-pro"
        else "gemini-2.5-flash")]
  else if agent == "copilot" then
    [("permissions",
      if ["code_generation", "code_debugging", "rewrite"].contains cls.taskType
        then "--allow-all-paths" else "(none - read-only)")]
  else []

/-- `RouteRequest` (router.py lines 242-250). -/
structure RouteRequest where
  prompt : String
  context : Option String := none
  prefer_speed : Bool := false
  prefer_cost : Bool := false
  exclude_agents : List String := []
  force_agent : Option String := none
  debug : Bool := false

/-- `RouteResponse` (router.py lines 253-260). -/
structure RouteResponse where
  selected_agent : String
  confidence : ℚ
  reasoning : String
  task_analysis : Classifier.Classification
  alternative_agents : List Classifier.Alt
  recommended_flags : List (String × String)

/-- The error the `/route` endpoint can raise: the HTTP 400
`Invalid agent: ...` response of the forced-provider path (router.py
lines 798-802).  No availability-related error exists anywhere in the code. -/
inductive RouteError where
  | invalidProvider (agent : String)
deriving DecidableEq

/-- The generic (non-forced) routing path of `route_task`
(router.py lines 814-831). -/
def routeGeneric (req : RouteRequest) : RouteResponse :=
  let classification := classify_prompt req.prompt
  let s := select_agent classification req.prefer_speed req.prefer_cost
    req.exclude_agents
  { selected_agent := s.selected_agent, confidence := s.confidence
    reasoning := s.reasoning, task_analysis := classification
    alternative_agents := s.alternatives
    recommended_flags := get_recommended_flags s.selected_agent classification }

/-- The `/route` endpoint `route_task` (router.py lines 794-831).  The
Python guard `if request.force_agent:` tests string truthiness: the forced
branch is taken only when `force_agent` is present AND non-empty, so
`force_agent=""` routes generically, like `None`.  The `installed` parameter
is the availability snapshot (`check_installed_agents`); the endpoint never
consults it — in particular the forced-provider branch performs no
availability check. -/
def route_task (req : RouteRequest) (installed : String → Bool) :
    Except RouteError RouteResponse :=
  match req.force_agent with
  | some fa =>
    if fa == "" then
      .ok (routeGeneric req)
    else if !(routerKeys.contains fa) then
      .error (.invalidProvider fa)
    else
      let classification := classify_prompt req.prompt
      .ok { selected_agent := fa, confidence := 1.0
            reasoning := "Agent forced to " ++ fa ++ " by request"
            task_analysis := classification, alternative_agents := []
            recommended_flags := get_recommended_flags fa classification }
  | none => .ok (routeGeneric req)

/-- Selected provider of a route result, when the request succeeded. -/
def getSelected : Except RouteError RouteResponse → Option String
  | .ok r => some r.selected_agent
  | .error _ => none

/-- Confidence of a route result, when the request succeeded. -/
def getConfidence : Except RouteError RouteResponse → Option ℚ
  | .ok r => some r.confidence
  | .error _ => none

/-- C7 counterexample: forcing the valid provider "gemini" while the
availability snapshot marks every provider unreachable still succeeds and
returns "gemini" — the endpoint has no availability check and no
`ProviderUnavailable` error exists, refuting the middle clause of the claim. -/
theorem route_task_forced_unavailable_counterexample :
    getSelected (route_task { prompt := "hello", force_agent := some "gemini" }
      (fun _ => false)) = some "gemini"
    ∧ (fun _ => false : String → Bool) "gemini" = false := by
  exact ⟨rfl, rfl⟩

/-- C7 amended: for every route request whose forced provider id is present
and non-empty (an empty id is falsy in Python and routes generically), if
the id is not in the registry the request fails with the `InvalidProvider`
(HTTP 400) error; otherwise the forced provider is returned with confidence
1.0, bypassing scoring — regardless of the availability snapshot (the code
performs no availability check on forced providers). -/
theorem route_task_forced (req : RouteRequest) (inst : String → Bool)
    (fa : String) (hf : req.force_agent = some fa) (hne : fa ≠ "") :
    (routerKeys.contains fa = false →
      route_task req inst = .error (.invalidProvider fa))
    ∧ (routerKeys.contains fa = true →
      getSelected (route_task req inst) = some fa
        ∧ getConfidence (route_task req inst) = some 1.0) := by
  have h0 : (fa == "") = false := by
    cases hb : fa == ""
    · rfl
    · exact absurd (by simpa using hb) hne
  unfold route_task
  simp only [hf]
  rw [if_neg (by rw [h0]; simp)]
  constructor
  · intro hno
    rw [if_pos (by rw [hno]; rfl)]
  · intro hyes
    rw [if_neg (by rw [hyes]; simp)]
    exact ⟨rfl, rfl⟩

/-- Witness for the amended C7 at a concrete forced request. -/
theorem route_task_forced_witness :
    getSelected (route_task { prompt := "x", force_agent := some "codex" }
      (fun _ => true)) = some "codex" :=
  ((route_task_forced { prompt := "x", force_agent := some "codex" }
    (fun _ => true) "codex" rfl (by decide)).2 (by decide)).1

end Router

end AgentRouter
